import Mathlib

/-!
# sogla: the tree-walking evaluator of `runtime/interpreter.go`

A shallow embedding of the runtime of the sogla interpreter
(`runtime/interpreter.go`, `runtime/builtin.go`, `runtime/variable.go`) and
theorems about its operator helpers, its expression stack machine, its `Let`
declaration, its `If` statement, its OpenTag blocks and its `Print` function.

Conventions of the embedding.

* A Go `interface{}` payload is a `Datum`; a type assertion `v.(T)` that does
  not hold is the fault `Fault.GoPanic`.
* `threwError` prints one line and calls `os.Exit(1)`: it is the fault
  `Fault.RuntimeError text`, where `text` is the line printed, and nothing after
  it runs. The line is what `fmt.Errorf` renders from the format string
  `[RuntimeError] message` with no operand (`fmt.Errorf`), so a `%` in the
  message is read as the start of a verb.
* Go's `int` is taken to be 64 bits wide; arithmetic wraps (`wrapInt`).
* The interpreter is a state transformer on `State`; an `Outcome` carries the
  state reached, also when the run aborts.
-/

namespace Sogla

/-! ## `lexer`: the statement tree -/

mutual
/-- A `lexer.Statement`: the `Kind` tag together with the `Body` payload that
`Evaluate` asserts for that kind. -/
inductive Statement where
  | K_EOF
  | K_OPEN_TAG (Body : OpenTag)
  | K_CLOSE_TAG (Body : CloseTag)
  | K_PARAMETERS
  | K_PARAMETER_VALUE (Body : Statement)
  | K_IDENTIFIER (Body : String)
  | K_NUMBER (Body : Int)
  | K_STRING (Body : String)
  | K_IF_STATEMENT (Body : OpenTag)
  | K_EXPRESSION (Body : Expression)
  | K_OPERATOR (Body : String)
/-- A `lexer.OpenTag`. -/
inductive OpenTag where
  | mk (Name : String) (Params : List Parameter) (Children : List Statement)
/-- A `lexer.CloseTag`. -/
inductive CloseTag where
  | mk (Name : String) (Params : List Parameter)
/-- A `lexer.Parameter`. -/
inductive Parameter where
  | mk (Key : String) (Value : Statement)
/-- A `lexer.Expression`. -/
inductive Expression where
  | mk (Statements : List Statement)
end

/-- Field `Name` of an `OpenTag`. -/
def OpenTag.Name : OpenTag → String
  | .mk n _ _ => n

/-- Field `Params` of an `OpenTag`. -/
def OpenTag.Params : OpenTag → List Parameter
  | .mk _ p _ => p

/-- Field `Children` of an `OpenTag`. -/
def OpenTag.Children : OpenTag → List Statement
  | .mk _ _ c => c

/-- Field `Name` of a `CloseTag`. -/
def CloseTag.Name : CloseTag → String
  | .mk n _ => n

/-- Field `Params` of a `CloseTag`. -/
def CloseTag.Params : CloseTag → List Parameter
  | .mk _ p => p

/-- Field `Key` of a `Parameter`. -/
def Parameter.Key : Parameter → String
  | .mk k _ => k

/-- Field `Value` of a `Parameter`. -/
def Parameter.Value : Parameter → Statement
  | .mk _ v => v

/-- Field `Statements` of an `Expression`. -/
def Expression.Statements : Expression → List Statement
  | .mk s => s

/-- The Go comparison `statement.Body == s` of the `interface{}` payload with a
string constant: it holds when the payload is a string equal to `s`. -/
def Statement.BodyEq : Statement → String → Bool
  | .K_IDENTIFIER b, s => b == s
  | .K_STRING b, s => b == s
  | .K_OPERATOR b, s => b == s
  | _, _ => false

/-- Modelled from the spec: `lexer.IsKeyword` is not in the source; section 4.3
names `Let` as the reserved keyword a CloseTag is resolved against. Only its
value at `"Let"` is observable, since `EvaluateCloseTag` uses it in
`isKeyword && name == "Let"`. -/
def IsKeyword (name : String) : Bool :=
  name == "Let"

/-! ## `runtime/variable.go`: the value model -/

/-- The `VarType` constants of `variable.go`, in `iota` order. -/
inductive VarType where
  | VAR_TYPE_UNDEFINED
  | VAR_TYPE_STRING
  | VAR_TYPE_IDENTIFIER
  | VAR_TYPE_NUMBER
  | VAR_TYPE_BOOLEAN
  | VAR_TYPE_FUNCTION
  | VAR_TYPE_NATIVE_FUNCTION
  | VAR_TYPE_ARRAY
  | VAR_TYPE_OBJECT
  deriving DecidableEq, Repr

/-- The method `VarType.String()`: the table `types`. -/
def VarType.toString : VarType → String
  | .VAR_TYPE_UNDEFINED => "undefined"
  | .VAR_TYPE_STRING => "string"
  | .VAR_TYPE_IDENTIFIER => "id"
  | .VAR_TYPE_NUMBER => "number"
  | .VAR_TYPE_BOOLEAN => "boolean"
  | .VAR_TYPE_FUNCTION => "function"
  | .VAR_TYPE_NATIVE_FUNCTION => "n-function"
  | .VAR_TYPE_ARRAY => "array"
  | .VAR_TYPE_OBJECT => "object"

/-- The two Go functions stored in the field `Call` of a
`RuntimeFunctionCall`. -/
inductive NativeCall where
  | NativePrint
  | NativeIfStatement
  deriving DecidableEq, Repr

/-- The struct `RuntimeFunctionCall` as `GlobalScope` builds it. -/
structure RuntimeFunctionCall where
  IsNative : Bool
  Name : String
  Call : NativeCall
  deriving DecidableEq, Repr

/-- The dynamic value held in a Go `interface{}`: the `Value` of an `EvalValue`
or of a `Variable`. `evalValue` is an `EvalValue` stored as a `Value`, the
payload `NativePrint` asserts for `VAR_TYPE_IDENTIFIER`. -/
inductive Datum where
  | nil
  | int (n : Int)
  | string (s : String)
  | bool (b : Bool)
  | function (f : RuntimeFunctionCall)
  | evalValue (Typ : VarType) (Value : Datum)
  deriving DecidableEq, Repr

/-- Modelled from the spec: the struct `EvalValue` is not in the source;
section 3 gives it as a `Type` tag and the underlying `Value`. The field `Type`
is written `Typ`. -/
structure EvalValue where
  Typ : VarType
  Value : Datum
  deriving DecidableEq, Repr

/-- Modelled from the spec: `EvalValue.IsNumber` is not in the source; it tests
the `Type` tag. -/
def EvalValue.IsNumber (v : EvalValue) : Bool :=
  v.Typ == .VAR_TYPE_NUMBER

/-- Modelled from the spec: `EvalValue.IsString` is not in the source; it tests
the `Type` tag. -/
def EvalValue.IsString (v : EvalValue) : Bool :=
  v.Typ == .VAR_TYPE_STRING

/-- The value `EvalValue{Type: VAR_TYPE_UNDEFINED, Value: "undefined"}`. -/
def Undefined : EvalValue :=
  ⟨.VAR_TYPE_UNDEFINED, .string "undefined"⟩

/-- The Number operand `n`: what `Evaluate` gives for a `K_NUMBER` literal. -/
def Number (n : Int) : EvalValue :=
  ⟨.VAR_TYPE_NUMBER, .int n⟩

/-- The String operand `s`: what `Evaluate` gives for a `K_STRING` literal. -/
def Str (s : String) : EvalValue :=
  ⟨.VAR_TYPE_STRING, .string s⟩

/-- The Boolean operand `b`: what `GreaterThan` and `SmallerThan` give. -/
def Boolean (b : Bool) : EvalValue :=
  ⟨.VAR_TYPE_BOOLEAN, .bool b⟩

/-- The struct `Variable` of `variable.go`. -/
structure Variable where
  Name : String
  Value : Datum
  ValueType : VarType
  deriving DecidableEq, Repr

/-! ## Go `int` arithmetic -/

/-- Width of Go's `int`. -/
def intBits : Nat := 64

/-- Two's-complement wrap of a mathematical integer into the `int` range. -/
def wrapInt (n : Int) : Int :=
  (n + 2 ^ (intBits - 1)) % 2 ^ intBits - 2 ^ (intBits - 1)

/-! ## `Scope` -/

/-- Modelled from the spec: the struct `Scope` is not in the source; section 3
gives it as a store of uniquely named variables plus an operand stack. The
head of `Stack` is the most recently pushed value. -/
structure Scope where
  Variables : List Variable
  Stack : List EvalValue
  deriving DecidableEq, Repr

/-- Modelled from the spec: `Scope.GetVariable` is not in the source; it looks
the name up in this Scope. `none` is the result `found = false`. -/
def Scope.GetVariable (s : Scope) (name : String) : Option Variable :=
  s.Variables.find? (fun v => v.Name == name)

/-- Modelled from the spec: `Scope.DefineVariable` is not in the source; it
succeeds unless a variable of that name already exists in this Scope, and
returns failure rather than overwriting. -/
def Scope.DefineVariable (s : Scope) (v : Variable) : Bool × Scope :=
  match s.GetVariable v.Name with
  | some _ => (false, s)
  | none => (true, { s with Variables := s.Variables ++ [v] })

/-- Modelled from the spec: `Scope.Push` is not in the source. -/
def Scope.Push (s : Scope) (v : EvalValue) : Scope :=
  { s with Stack := v :: s.Stack }

/-- Modelled from the spec: `Scope.Pop` is not in the source; popping an empty
stack fails (`none`, the `StackUnderflow` of section 4.2). -/
def Scope.Pop (s : Scope) : Option (EvalValue × Scope) :=
  match s.Stack with
  | [] => none
  | v :: rest => some (v, { s with Stack := rest })

/-- `GlobalScope` of `builtin.go`: an empty Scope in which `Print` and `If` are
defined as native functions. -/
def GlobalScope : Scope :=
  let globalScope : Scope := ⟨[], []⟩
  let globalScope := (globalScope.DefineVariable
    ⟨"Print", .function ⟨true, "Print", .NativePrint⟩, .VAR_TYPE_NATIVE_FUNCTION⟩).2
  let globalScope := (globalScope.DefineVariable
    ⟨"If", .function ⟨true, "If", .NativeIfStatement⟩, .VAR_TYPE_NATIVE_FUNCTION⟩).2
  globalScope

/-! ## `Parameters`: a Go map from argument name to value -/

/-- The map type `Parameters`: its entries, with distinct keys. The order of
the list is the order of first insertion; Go does not expose it. -/
abbrev Parameters := List (String × EvalValue)

/-- The lookup `v, ok := params[key]`. -/
def Parameters.get (params : Parameters) (key : String) : Option EvalValue :=
  match params with
  | [] => none
  | (k, v) :: rest => if k == key then some v else Parameters.get rest key

/-- The assignment `params[key] = v`: it replaces the value of a key that is
present and adds the key otherwise. -/
def Parameters.set (params : Parameters) (key : String) (v : EvalValue) : Parameters :=
  match params with
  | [] => [(key, v)]
  | (k, w) :: rest => if k == key then (k, v) :: rest else (k, w) :: Parameters.set rest key v

/-! ## Interpreter state, faults and outcomes -/

/-- What the run writes: the debug lines of `EvaluateOperator` and `Sum`, the
line of `NativePrint`, and the notice of `Evaluate` for a kind it does not
know. `Println` records the mapping `NativePrint` ranged over, since the order
of a Go map range is not fixed. -/
inductive Event where
  | OP (expr : Statement)
  | Sum (x y : EvalValue)
  | Println (params : Parameters)
  | unknown (statement : Statement)

/-- Which Scope a `scope *Scope` argument points to: the interpreter's own
`interpreter.Scope`, or the `newScope` of the innermost OpenTag block being
evaluated. -/
inductive ScopeRef where
  | interpreterScope
  | newScope
  deriving DecidableEq, Repr

/-- The mutable state of a run: `interpreter.Scope`, the `newScope` of the
innermost OpenTag block being evaluated, and what has been written. -/
structure State where
  Scope : Sogla.Scope
  newScope : Sogla.Scope
  Output : List Event

/-- The Scope a `scope` argument points to. -/
def State.deref (st : State) : ScopeRef → Sogla.Scope
  | .interpreterScope => st.Scope
  | .newScope => st.newScope

/-- Store through a `scope` argument. -/
def State.assign (st : State) (scope : ScopeRef) (s : Sogla.Scope) : State :=
  match scope with
  | .interpreterScope => { st with Scope := s }
  | .newScope => { st with newScope := s }

/-- Append one event to what has been written. -/
def State.write (st : State) (e : Event) : State :=
  { st with Output := st.Output ++ [e] }

/-- The Go runtime panics the interpreter can raise. -/
inductive Panic where
  | interfaceConversion
  | integerDivideByZero
  | indexOutOfRange
  deriving DecidableEq, Repr

/-- How a run aborts: `threwError` (the line `text` is printed, then
`os.Exit(1)`), a Go runtime panic, or a `Pop` on an empty operand stack. -/
inductive Fault where
  | RuntimeError (text : String)
  | GoPanic (p : Panic)
  | StackUnderflow
  deriving DecidableEq, Repr

/-- The result of running a piece of the interpreter from a state: a value and
the state reached, or the fault that aborted the run and the state reached
then. -/
inductive Outcome (α : Type) where
  | ok (value : α) (st : State)
  | fail (fault : Fault) (st : State)

/-- The state an outcome ends in. -/
def Outcome.state {α : Type} : Outcome α → State
  | .ok _ st => st
  | .fail _ st => st

/-! ## Go's `fmt`: a format string printed with no operand

`threwError` hands the text it has already formatted to `fmt.Errorf` as the
format string, with no operand. What follows is `doPrintf` of Go's `fmt`
package (`fmt/print.go`) for an empty operand list: text is copied up to a `%`;
after a `%` come flags, an argument index `[n]`, a width, a precision and the
verb; `%%` prints `%`, any other verb finds no operand and prints
`%!verb(MISSING)`, and a `%` with no verb prints `%!(NOVERB)`. The format is a
list of characters. -/

/-- The flag characters of the loop `simpleFormat` of `doPrintf`. -/
def fmt.isFlag (c : Char) : Bool :=
  c == '#' || c == '0' || c == '+' || c == '-' || c == ' '

/-- The loop of `parsenum`: whether a number was read, and the format after it.
A number above `1e6` (`tooLarge`) gives up and moves to the end of the format. -/
def fmt.parsenum.loop (num : Nat) (isnum : Bool) : List Char → Bool × List Char
  | [] => (isnum, [])
  | c :: rest =>
    if '0' ≤ c ∧ c ≤ '9' then
      if num > 1000000 then (false, [])
      else fmt.parsenum.loop (num * 10 + (c.toNat - '0'.toNat)) true rest
    else (isnum, c :: rest)

/-- The function `parsenum` on the rest of the format. -/
def fmt.parsenum (format : List Char) : Bool × List Char :=
  fmt.parsenum.loop 0 false format

/-- The function `parseArgNumber` on the format from its `[` on: the width of
the index, and whether it is a number in brackets. -/
def fmt.parseArgNumber (format : List Char) : Nat × Bool :=
  if format.length < 3 then (1, false)
  else
    match (format.drop 1).indexOf? ']' with
    | some j =>
      let (ok, rest) := fmt.parsenum ((format.drop 1).take j)
      (j + 2, ok && rest.isEmpty)
    | none => (1, false)

/-- The method `argNumber` when there is no operand: the format after the
index, `found`, and `goodArgNum`. No index is in range, so an index always
clears `goodArgNum`. -/
def fmt.argNumber (format : List Char) (goodArgNum : Bool) : List Char × Bool × Bool :=
  match format with
  | '[' :: _ =>
    let (wid, ok) := fmt.parseArgNumber format
    (format.drop wid, ok, false)
  | _ => (format, false, goodArgNum)

/-- One verb of `doPrintf` with no operand, from the character after the `%`:
what is written, and the format after the verb. -/
def fmt.verb (format : List Char) : List Char × List Char :=
  -- Do we have flags?
  let format := format.dropWhile fmt.isFlag
  -- Do we have an explicit argument index?
  let (format, afterIndex, goodArgNum) := fmt.argNumber format true
  -- Do we have width?
  let (out, format, afterIndex, goodArgNum) :=
    match format with
    | '*' :: format => ("%!(BADWIDTH)".data, format, false, goodArgNum)
    | _ =>
      let (widPresent, format) := fmt.parsenum format
      ([], format, afterIndex, goodArgNum && !(afterIndex && widPresent))
  -- Do we have precision?
  let (out, format, afterIndex, goodArgNum) :=
    match format with
    | '.' :: format =>
      let goodArgNum := goodArgNum && !afterIndex
      let (format, afterIndex, goodArgNum) := fmt.argNumber format goodArgNum
      match format with
      | '*' :: format => (out ++ "%!(BADPREC)".data, format, false, goodArgNum)
      | _ => (out, (fmt.parsenum format).2, afterIndex, goodArgNum)
    | _ => (out, format, afterIndex, goodArgNum)
  let (format, goodArgNum) :=
    if afterIndex then (format, goodArgNum)
    else
      let (format, _, goodArgNum) := fmt.argNumber format goodArgNum
      (format, goodArgNum)
  match format with
  | [] => (out ++ "%!(NOVERB)".data, [])
  | verb :: format =>
    if verb = '%' then (out ++ ['%'], format)
    else if !goodArgNum then (out ++ "%!".data ++ [verb] ++ "(BADINDEX)".data, format)
    else (out ++ "%!".data ++ [verb] ++ "(MISSING)".data, format)

/-- The method `doPrintf` with no operand. `skip` counts the characters of the
format that the verb before has already consumed. -/
def fmt.doPrintf : List Char → Nat → List Char
  | [], _ => []
  | _ :: format, skip + 1 => fmt.doPrintf format skip
  | c :: format, 0 =>
    if c = '%' then
      (fmt.verb format).1
        ++ fmt.doPrintf format (format.length - (fmt.verb format).2.length)
    else c :: fmt.doPrintf format 0

/-- The text of the error `fmt.Errorf(format)`, a call with no operand. -/
def fmt.Errorf (format : String) : String :=
  ⟨fmt.doPrintf format.data 0⟩

/-- The method `threwError`. `fmt.Sprintf("[RuntimeError] %v", message)` is the
message after the prefix; that text is then the format string of
`fmt.Errorf`, and the error is printed. -/
def threwError {α : Type} (message : String) (st : State) : Outcome α :=
  .fail (.RuntimeError (fmt.Errorf ("[RuntimeError] " ++ message))) st

/-- The call `scope.Push(v)`. -/
def Push (scope : ScopeRef) (v : EvalValue) (st : State) : State :=
  st.assign scope ((st.deref scope).Push v)

/-- The call `scope.Pop()`. -/
def Pop (scope : ScopeRef) (st : State) : Outcome EvalValue :=
  match (st.deref scope).Pop with
  | none => .fail .StackUnderflow st
  | some (v, s) => .ok v (st.assign scope s)

/-! ## `runtime/interpreter.go`: the operator helpers -/

/-- The method `Sum`. -/
def Sum (x y : EvalValue) (st : State) : Outcome EvalValue :=
  let st := st.write (.Sum x y)
  if !(x.IsNumber || x.IsString || y.IsNumber || y.IsString) then
    threwError ("expect string or number found " ++ y.Typ.toString ++ " and " ++ x.Typ.toString) st
  else if x.IsString && y.IsString then
    match y.Value, x.Value with
    | .string ys, .string xs => .ok ⟨.VAR_TYPE_NUMBER, .string (ys ++ xs)⟩ st
    | _, _ => .fail (.GoPanic .interfaceConversion) st
  else if x.IsNumber && y.IsNumber then
    match y.Value, x.Value with
    | .int yn, .int xn => .ok ⟨.VAR_TYPE_NUMBER, .int (wrapInt (yn + xn))⟩ st
    | _, _ => .fail (.GoPanic .interfaceConversion) st
  else if x.IsNumber || (x.IsString && y.IsNumber) || y.IsString then
    threwError
      ("expect left and right to be number found " ++ y.Typ.toString ++ " and " ++ x.Typ.toString) st
  else
    match y.Value, x.Value with
    | .int yn, .int xn => .ok ⟨.VAR_TYPE_NUMBER, .int (wrapInt (yn + xn))⟩ st
    | _, _ => .fail (.GoPanic .interfaceConversion) st

/-- The method `Mul`. -/
def Mul (x y : EvalValue) (st : State) : Outcome EvalValue :=
  if !(x.IsNumber || y.IsNumber) then
    threwError ("expect both number found " ++ y.Typ.toString ++ " and " ++ x.Typ.toString) st
  else
    match x.Value, y.Value with
    | .int xn, .int yn => .ok ⟨.VAR_TYPE_NUMBER, .int (wrapInt (xn * yn))⟩ st
    | _, _ => .fail (.GoPanic .interfaceConversion) st

/-- The method `Div`. Go's `/` on `int` truncates toward zero and panics on a
zero divisor. -/
def Div (x y : EvalValue) (st : State) : Outcome EvalValue :=
  if !(x.IsNumber || y.IsNumber) then
    threwError ("expect both  number found " ++ y.Typ.toString ++ " and " ++ x.Typ.toString) st
  else
    match x.Value, y.Value with
    | .int xn, .int yn =>
      if yn == 0 then .fail (.GoPanic .integerDivideByZero) st
      else .ok ⟨.VAR_TYPE_NUMBER, .int (wrapInt (Int.tdiv xn yn))⟩ st
    | _, _ => .fail (.GoPanic .interfaceConversion) st

/-- The method `Sub`. -/
def Sub (x y : EvalValue) (st : State) : Outcome EvalValue :=
  if !(x.IsNumber || y.IsNumber) then
    threwError ("expect both number found " ++ y.Typ.toString ++ " and " ++ x.Typ.toString) st
  else
    match x.Value, y.Value with
    | .int xn, .int yn => .ok ⟨.VAR_TYPE_NUMBER, .int (wrapInt (xn - yn))⟩ st
    | _, _ => .fail (.GoPanic .interfaceConversion) st

/-- The method `GreaterThan`. -/
def GreaterThan (x y : EvalValue) (st : State) : Outcome EvalValue :=
  if !(x.IsNumber || y.IsNumber) then
    threwError
      ("expect both number or boolean found " ++ y.Typ.toString ++ " and " ++ x.Typ.toString) st
  else
    match y.Value, x.Value with
    | .int yn, .int xn => .ok ⟨.VAR_TYPE_BOOLEAN, .bool (decide (yn > xn))⟩ st
    | _, _ => .fail (.GoPanic .interfaceConversion) st

/-- The method `SmallerThan`. -/
def SmallerThan (x y : EvalValue) (st : State) : Outcome EvalValue :=
  if !(x.IsNumber || y.IsNumber) then
    threwError
      ("expect both number or boolean found " ++ y.Typ.toString ++ " and " ++ x.Typ.toString) st
  else
    match y.Value, x.Value with
    | .int yn, .int xn => .ok ⟨.VAR_TYPE_BOOLEAN, .bool (decide (yn < xn))⟩ st
    | _, _ => .fail (.GoPanic .interfaceConversion) st

/-- The method `Equal`. -/
def Equal (x y : EvalValue) (st : State) : Outcome EvalValue :=
  if !(x.IsNumber || x.IsString || y.IsNumber || y.IsString) then
    threwError ("expect string or number found " ++ y.Typ.toString ++ " and " ++ x.Typ.toString) st
  else if x.IsString && y.IsString then
    match y.Value, x.Value with
    | .string ys, .string xs => .ok ⟨.VAR_TYPE_NUMBER, .bool (ys == xs)⟩ st
    | _, _ => .fail (.GoPanic .interfaceConversion) st
  else
    match y.Value, x.Value with
    | .int yn, .int xn => .ok ⟨.VAR_TYPE_BOOLEAN, .bool (yn == xn)⟩ st
    | _, _ => .fail (.GoPanic .interfaceConversion) st

/-- The method `NotEqual`. -/
def NotEqual (x y : EvalValue) (st : State) : Outcome EvalValue :=
  if !(x.IsNumber || x.IsString || y.IsNumber || y.IsString) then
    threwError ("expect string or number found " ++ y.Typ.toString ++ " and " ++ x.Typ.toString) st
  else if x.IsString && y.IsString then
    match y.Value, x.Value with
    | .string ys, .string xs => .ok ⟨.VAR_TYPE_NUMBER, .bool (ys != xs)⟩ st
    | _, _ => .fail (.GoPanic .interfaceConversion) st
  else
    match y.Value, x.Value with
    | .int yn, .int xn => .ok ⟨.VAR_TYPE_BOOLEAN, .bool (yn != xn)⟩ st
    | _, _ => .fail (.GoPanic .interfaceConversion) st

/-- The argument list `(scope.Pop(), scope.Pop())` of an operator call followed
by the call: Go evaluates the two pops left to right, so the first argument
`x` is the value on top of the stack and the second argument `y` the one
below it. -/
def applyToPops (f : EvalValue → EvalValue → State → Outcome EvalValue)
    (scope : ScopeRef) (st : State) : Outcome EvalValue :=
  match Pop scope st with
  | .fail e st1 => .fail e st1
  | .ok x st1 =>
    match Pop scope st1 with
    | .fail e st2 => .fail e st2
    | .ok y st2 => f x y st2

/-- The method `EvaluateOperator`. -/
def EvaluateOperator (expr : Statement) (scope : ScopeRef) (st : State) : Outcome EvalValue :=
  let st := st.write (.OP expr)
  if expr.BodyEq "+" then applyToPops Sum scope st
  else if expr.BodyEq "*" then applyToPops Mul scope st
  else if expr.BodyEq "/" then applyToPops Div scope st
  else if expr.BodyEq "-" then applyToPops Sub scope st
  else if expr.BodyEq "greater" then applyToPops GreaterThan scope st
  else if expr.BodyEq "smaller" then applyToPops SmallerThan scope st
  else if expr.BodyEq "==" then applyToPops Equal scope st
  else if expr.BodyEq "!=" then applyToPops NotEqual scope st
  else .ok Undefined st

/-! ## `runtime/builtin.go`: the native functions -/

/-- The loop of `NativePrint` over the entries of the mapping, taken in the
order `entries`; `none` is the panic of the assertion `param.Value.(EvalValue)`. -/
def NativePrint.values : List (String × EvalValue) → List Datum → Option (List Datum)
  | [], values => some values
  | (_, param) :: rest, values =>
    match param.Typ with
    | .VAR_TYPE_STRING => NativePrint.values rest (values ++ [param.Value])
    | .VAR_TYPE_IDENTIFIER =>
      match param.Value with
      | .evalValue _ v => NativePrint.values rest (values ++ [v])
      | _ => none
    | _ => NativePrint.values rest values

/-- The function `NativePrint`. Whether the assertion panics does not depend
on the order of the range; the line written is recorded as the mapping. -/
def NativePrint (params : Parameters) (st : State) : Outcome EvalValue :=
  match NativePrint.values params [] with
  | none => .fail (.GoPanic .interfaceConversion) st
  | some _ => .ok Undefined (st.write (.Println params))

/-- The function `NativeIfStatement`. A missing key gives the zero `EvalValue`,
whose `Value` is nil. -/
def NativeIfStatement (params : Parameters) (st : State) : Outcome EvalValue :=
  match params.get "condition" with
  | some ⟨_, .bool true⟩ => .ok ⟨.VAR_TYPE_BOOLEAN, .string "true"⟩ st
  | some ⟨_, .bool false⟩ => .ok ⟨.VAR_TYPE_BOOLEAN, .string "false"⟩ st
  | _ => .fail (.GoPanic .interfaceConversion) st

/-- The call `function.Call(params)` of a `RuntimeFunctionCall`. -/
def RuntimeFunctionCall.call (function : RuntimeFunctionCall) (params : Parameters)
    (st : State) : Outcome EvalValue :=
  match function.Call with
  | .NativePrint => NativePrint params st
  | .NativeIfStatement => NativeIfStatement params st

/-- The method `EvaluateNativeFunction`. -/
def EvaluateNativeFunction (function : RuntimeFunctionCall) (params : Parameters)
    (st : State) : Outcome EvalValue :=
  function.call params st

/-- The method `EvaluateNativeIfStatement`. -/
def EvaluateNativeIfStatement (function : RuntimeFunctionCall) (params : Parameters)
    (st : State) : Outcome EvalValue :=
  function.call params st

/-- The method `EvaluateIdentifier`: the lookup is in `interpreter.Scope`,
whatever `scope` is. -/
def EvaluateIdentifier (name : String) (_scope : ScopeRef) (st : State) : Outcome EvalValue :=
  match st.Scope.GetVariable name with
  | some var => .ok ⟨var.ValueType, var.Value⟩ st
  | none => threwError ("'" ++ name ++ "' is undefined") st

/-! ## `runtime/interpreter.go`: the evaluator -/

/-- The body of `EvaluateLetDeclaration` from its second line on, applied to
the outcome of `EvaluateParameters(params, scope)`. The variable is defined in
`interpreter.Scope`, whatever `scope` is. -/
def EvaluateLetDeclaration.define (evaluated : Outcome Parameters) : Outcome EvalValue :=
  match evaluated with
  | .fail e st => .fail e st
  | .ok evaluatedParams st =>
    match evaluatedParams.get "value" with
    | none => threwError "Expect 'value' param" st
    | some value =>
      match evaluatedParams.get "id" with
      | none => threwError "Expect 'id' param" st
      | some id =>
        match id.Value with
        | .string name =>
          match st.Scope.DefineVariable ⟨name, value.Value, value.Typ⟩ with
          | (true, s) => .ok Undefined { st with Scope := s }
          | (false, s) =>
            threwError ("\x7b" ++ id.Typ.toString ++ " " ++ name ++ "\x7d is already declared")
              { st with Scope := s }
        | _ => .fail (.GoPanic .interfaceConversion) st

mutual
/-- The method `Evaluate`. -/
def Evaluate (statement : Statement) (scope : ScopeRef) (st : State) : Outcome EvalValue :=
  match statement with
  | .K_OPEN_TAG Body => EvaluateOpenTag Body scope st
  | .K_CLOSE_TAG Body => EvaluateCloseTag Body scope st
  | .K_PARAMETER_VALUE Body => Evaluate Body scope st
  | .K_IDENTIFIER Body => EvaluateIdentifier Body scope st
  | .K_IF_STATEMENT Body => EvaluateIfStatement Body scope st
  | .K_EXPRESSION Body => EvaluateExpression Body scope st
  | .K_NUMBER Body => .ok ⟨.VAR_TYPE_NUMBER, .int Body⟩ st
  | .K_STRING Body => .ok ⟨.VAR_TYPE_STRING, .string Body⟩ st
  | .K_EOF => .ok Undefined st
  | .K_PARAMETERS => .ok Undefined (st.write (.unknown .K_PARAMETERS))
  | .K_OPERATOR Body => .ok Undefined (st.write (.unknown (.K_OPERATOR Body)))
/-- The method `EvaluateOpenTag`: `newScope := Scope{}` is a fresh Scope, which
the children are evaluated with; it is dropped on return, when the `newScope`
of the enclosing block is current again. -/
def EvaluateOpenTag (openTag : OpenTag) (_scope : ScopeRef) (st : State) : Outcome EvalValue :=
  match openTag with
  | .mk _ _ children =>
    match EvaluateOpenTag.range children { st with newScope := ⟨[], []⟩ } with
    | .fail e st1 => .fail e st1
    | .ok v st1 => .ok v { st1 with newScope := st.newScope }
/-- The loop `for _, child := range children` of `EvaluateOpenTag`. -/
def EvaluateOpenTag.range (children : List Statement) (st : State) : Outcome EvalValue :=
  match children with
  | [] => .ok Undefined st
  | child :: rest =>
    match child with
    | .K_IF_STATEMENT Body => EvaluateIfStatement Body .newScope st
    | .K_CLOSE_TAG Body =>
      match EvaluateCloseTag Body .newScope st with
      | .fail e st1 => .fail e st1
      | .ok _ st1 => EvaluateOpenTag.range rest st1
    | .K_OPEN_TAG Body =>
      match Evaluate (.K_OPEN_TAG Body) .newScope st with
      | .fail e st1 => .fail e st1
      | .ok _ st1 => EvaluateOpenTag.range rest st1
    | _ => EvaluateOpenTag.range rest st
/-- The method `EvaluateCloseTag`. -/
def EvaluateCloseTag (closeTag : CloseTag) (scope : ScopeRef) (st : State) : Outcome EvalValue :=
  match closeTag with
  | .mk name Params =>
    let isKeyword := IsKeyword name
    if isKeyword && name == "Let" then
      EvaluateLetDeclaration.define (EvaluateParameters.range Params scope [] st)
    else
      match st.Scope.GetVariable name with
      | none => .ok Undefined st
      | some var =>
        if var.ValueType == .VAR_TYPE_NATIVE_FUNCTION then
          match var.Value with
          | .function function =>
            match EvaluateParameters.range Params scope [] st with
            | .fail e st1 => .fail e st1
            | .ok params st1 => EvaluateNativeFunction function params st1
          | _ => .fail (.GoPanic .interfaceConversion) st
        else .ok Undefined st
/-- The loop of `EvaluateParameters`, from the mapping `params` built so far. -/
def EvaluateParameters.range (parameters : List Parameter) (scope : ScopeRef)
    (params : Parameters) (st : State) : Outcome Parameters :=
  match parameters with
  | [] => .ok params st
  | param :: rest =>
    match param with
    | .mk Key Value =>
      match Evaluate Value scope st with
      | .fail e st1 => .fail e st1
      | .ok v st1 => EvaluateParameters.range rest scope (params.set Key v) st1
/-- The method `EvaluateIfStatement`. -/
def EvaluateIfStatement (openTag : OpenTag) (scope : ScopeRef) (st : State) : Outcome EvalValue :=
  match openTag with
  | .mk _ params nodes =>
    match params with
    | [] => threwError "Expect 'condition' param for if statement" st
    | param :: _ =>
      match EvaluateCondition param scope st with
      | .fail e st1 => .fail e st1
      | .ok result st1 =>
        if result.Value == .bool true then
          match EvaluateIfStatement.range nodes scope st1 with
          | .fail e st2 => .fail e st2
          | .ok _ st2 => .ok Undefined st2
        else .ok Undefined st1
/-- The loop `for _, node := range nodes` of `EvaluateIfStatement`. -/
def EvaluateIfStatement.range (nodes : List Statement) (scope : ScopeRef) (st : State) :
    Outcome Unit :=
  match nodes with
  | [] => .ok () st
  | node :: rest =>
    match Evaluate node scope st with
    | .fail e st1 => .fail e st1
    | .ok _ st1 => EvaluateIfStatement.range rest scope st1
/-- The method `EvaluateCondition`. -/
def EvaluateCondition (param : Parameter) (scope : ScopeRef) (st : State) : Outcome EvalValue :=
  match param with
  | .mk Key Value =>
    if Key != "condition" then
      threwError ("Expect 'condition' param for if statement found '" ++ Key ++ "'") st
    else Evaluate Value scope st
/-- The method `EvaluateExpression`. -/
def EvaluateExpression (expr : Expression) (scope : ScopeRef) (st : State) : Outcome EvalValue :=
  match expr with
  | .mk statements =>
    match EvaluateExpression.range statements scope st with
    | .fail e st1 => .fail e st1
    | .ok _ st1 => Pop scope st1
/-- The loop `for _, ex := range expr.Statements` of `EvaluateExpression`. -/
def EvaluateExpression.range (statements : List Statement) (scope : ScopeRef) (st : State) :
    Outcome Unit :=
  match statements with
  | [] => .ok () st
  | ex :: rest =>
    match ex with
    | .K_OPERATOR Body =>
      match EvaluateOperator (.K_OPERATOR Body) scope st with
      | .fail e st1 => .fail e st1
      | .ok v st1 => EvaluateExpression.range rest scope (Push scope v st1)
    | _ =>
      match Evaluate ex scope st with
      | .fail e st1 => .fail e st1
      | .ok v st1 => EvaluateExpression.range rest scope (Push scope v st1)
end

/-- The method `EvaluateParameters`: the loop from `make(Parameters)`. -/
def EvaluateParameters (parameters : List Parameter) (scope : ScopeRef) (st : State) :
    Outcome Parameters :=
  EvaluateParameters.range parameters scope [] st

/-- The method `EvaluateLetDeclaration`. -/
def EvaluateLetDeclaration (closeTag : CloseTag) (scope : ScopeRef) (st : State) :
    Outcome EvalValue :=
  EvaluateLetDeclaration.define (EvaluateParameters closeTag.Params scope st)

/-- The value or the fault of an outcome, without the state. -/
def Outcome.result {α : Type} : Outcome α → Except Fault α
  | .ok v _ => .ok v
  | .fail e _ => .error e

/-- The state `NewInterpreter` starts a run in: `interpreter.Scope` is
`GlobalScope()`, nothing has been written, and no block is open. -/
def initialState : State :=
  ⟨GlobalScope, ⟨[], []⟩, []⟩

/-- The variables of `interpreter.Scope` in `st` are still there in `st1`, in
the same order, possibly followed by new ones. -/
def Keeps (st st1 : State) : Prop :=
  st.Scope.Variables <+: st1.Scope.Variables

/-- The words of the claim on `If`, "every child statement is evaluated exactly
once, in order, in the same scope": `EvaluatedInOrder scope nodes st st2` holds
when evaluating the statements of `nodes` one after the other with `scope`,
each from the state the one before it left, leads from `st` to `st2` without
error. -/
inductive EvaluatedInOrder (scope : ScopeRef) : List Statement → State → State → Prop where
  | nil (st : State) : EvaluatedInOrder scope [] st st
  | cons {node : Statement} {rest : List Statement} {st st1 st2 : State} {v : EvalValue} :
      Evaluate node scope st = .ok v st1 → EvaluatedInOrder scope rest st1 st2 →
      EvaluatedInOrder scope (node :: rest) st st2

/-- A child that the loop of `EvaluateOpenTag` evaluates and goes on from: an
OpenTag or a CloseTag. -/
def Statement.isTag : Statement → Bool
  | .K_OPEN_TAG _ => true
  | .K_CLOSE_TAG _ => true
  | _ => false

/-- The invariant of section 3 in the words of the claim on it: a value of Type
String carries a string, one of Type Number an integer, one of Type Boolean a
boolean. -/
def EvalValue.ValueMatchesType (v : EvalValue) : Bool :=
  match v.Typ, v.Value with
  | .VAR_TYPE_STRING, .string _ => true
  | .VAR_TYPE_STRING, _ => false
  | .VAR_TYPE_NUMBER, .int _ => true
  | .VAR_TYPE_NUMBER, _ => false
  | .VAR_TYPE_BOOLEAN, .bool _ => true
  | .VAR_TYPE_BOOLEAN, _ => false
  | _, _ => true

/-- Modelled from the spec: the struct `lexer.Program` is not in the source;
section 3 gives it as the ordered sequence of top-level statements. -/
structure Program where
  Statements : List Statement

/-- The loop of `Run`: each top-level statement is evaluated with
`interpreter.Scope`, and `next` moves to the one after it. -/
def Run.loop : List Statement → State → Outcome Unit
  | [], st => .ok () st
  | statement :: rest, st =>
    match Evaluate statement .interpreterScope st with
    | .fail e st1 => .fail e st1
    | .ok _ st1 => Run.loop rest st1

/-- `NewInterpreter(ast)` followed by `Run()`. `NewInterpreter` reads
`ast.Statements[0]`, which panics for a program without statements. -/
def Run (ast : Program) : Outcome Unit :=
  match ast.Statements with
  | [] => .fail (.GoPanic .indexOutOfRange) initialState
  | statement :: rest => Run.loop (statement :: rest) initialState

/-- The statement `<Let id="name" value=n/>` with a Number literal as value,
used in the examples. -/
def LetNumber (name : String) (n : Int) : Statement :=
  .K_CLOSE_TAG (.mk "Let" [.mk "id" (.K_STRING name), .mk "value" (.K_NUMBER n)])

/-- The expression statement `a b op` on two Number literals, used in the
examples. -/
def NumberExpression (a b : Int) (op : String) : Statement :=
  .K_EXPRESSION (.mk [.K_NUMBER a, .K_NUMBER b, .K_OPERATOR op])

/-- The lines `NativePrint` can write for the mapping `params`: the values its
loop collects when the `range` over the Go map takes the entries in some
order. Go does not fix that order, and it need not be the order of insertion. -/
def NativePrint.mayPrint (params : Parameters) (values : List Datum) : Prop :=
  ∃ entries : List (String × EvalValue),
    entries.Perm params ∧ NativePrint.values entries [] = some values

/-- How `fmt.Println` renders a string, an integer, a boolean or nil; the other
payloads are not rendered here. -/
def Datum.text : Datum → Option String
  | .string s => some s
  | .int n => some (toString n)
  | .bool b => some (if b then "true" else "false")
  | .nil => some "<nil>"
  | _ => none

/-- The text of `fmt.Println(values...)`: the operands separated by blanks and
followed by a newline. -/
def Println.text (values : List Datum) : Option String :=
  (values.mapM Datum.text).map (fun words => " ".intercalate words ++ "\n")

/-- The operator tokens `EvaluateOperator` knows. -/
def IsOperator (Body : String) : Bool :=
  Body == "+" || Body == "*" || Body == "/" || Body == "-" || Body == "greater" ||
    Body == "smaller" || Body == "==" || Body == "!="

mutual
/-- An operand node of section 4.6: an Identifier, a Number, a String, or a
nested Expression that is itself well formed. -/
def Statement.isOperand : Statement → Bool
  | .K_IDENTIFIER _ => true
  | .K_NUMBER _ => true
  | .K_STRING _ => true
  | .K_EXPRESSION Body => Body.WellFormed
  | _ => false
/-- A well-formed Expression: its statements are a postfix sequence that
reduces to one value. -/
def Expression.WellFormed : Expression → Bool
  | .mk statements => Postfix.depth statements 0 == some 1
/-- The number of values a postfix sequence leaves when it starts with `depth`
values: an operand adds one, an operator token needs two and leaves one;
`none` when the sequence is not well formed. -/
def Postfix.depth : List Statement → Nat → Option Nat
  | [], depth => some depth
  | ex :: rest, depth =>
    match ex with
    | .K_OPERATOR Body =>
      if IsOperator Body && decide (2 ≤ depth) then Postfix.depth rest (depth - 1) else none
    | _ => if ex.isOperand then Postfix.depth rest (depth + 1) else none
end

/-- What the operand-stack operations through `scope` leave alone: the
variables of the Scope `scope` points to, and the other Scope as a whole. -/
def State.frame (st : State) (scope : ScopeRef) : List Variable × Sogla.Scope :=
  match scope with
  | .interpreterScope => (st.Scope.Variables, st.newScope)
  | .newScope => (st.newScope.Variables, st.Scope)

/-- A statement that only yields a value: an operand, bare or wrapped as a
ParameterValue (`Evaluate` passes a ParameterValue on to its body). -/
def Statement.isValue : Statement → Bool
  | .K_PARAMETER_VALUE Body => Body.isValue
  | .K_IDENTIFIER Body => (Statement.K_IDENTIFIER Body).isOperand
  | .K_NUMBER Body => (Statement.K_NUMBER Body).isOperand
  | .K_STRING Body => (Statement.K_STRING Body).isOperand
  | .K_EXPRESSION Body => (Statement.K_EXPRESSION Body).isOperand
  | _ => false

/-! ## Theorems -/

/-! ### `fmt.Errorf`: text without `%` is printed as it is -/

theorem fmt.doPrintf_plain (format : List Char) (h : '%' ∉ format) :
    fmt.doPrintf format 0 = format := by
  induction format with
  | nil => rfl
  | cons c rest ih =>
    simp only [List.mem_cons, not_or] at h
    rw [fmt.doPrintf, if_neg (fun e => h.1 e.symm), ih h.2]

theorem fmt.Errorf_plain (format : String) (h : '%' ∉ format.data) :
    fmt.Errorf format = format := by
  unfold fmt.Errorf
  rw [fmt.doPrintf_plain _ h]

/-- The line of the `is undefined` error for a name without `%`. -/
theorem fmt.Errorf_is_undefined (n : String) (h : '%' ∉ n.data) :
    fmt.Errorf ("[RuntimeError] " ++ ("'" ++ n ++ "' is undefined"))
      = "[RuntimeError] '" ++ n ++ "' is undefined" := by
  rw [fmt.Errorf_plain]
  · apply String.ext
    simp [String.data_append]
  · simp only [String.data_append, List.mem_append, not_or]
    exact ⟨by decide, ⟨by decide, h⟩, by decide⟩

theorem Pop_Push (scope : ScopeRef) (v : EvalValue) (st : State) :
    Pop scope (Push scope v st) = .ok v st := by
  cases scope <;> rfl

theorem write_Push (scope : ScopeRef) (v : EvalValue) (st : State) (e : Event) :
    (Push scope v st).write e = Push scope v (st.write e) := by
  cases scope <;> rfl

/-- With `y` pushed first and `x` second, the operator helper is called as
`f x y`: its first argument is the operand pushed last. -/
theorem applyToPops_Push (f : EvalValue → EvalValue → State → Outcome EvalValue)
    (scope : ScopeRef) (x y : EvalValue) (st : State) :
    applyToPops f scope (Push scope x (Push scope y st)) = f x y st := by
  simp [applyToPops, Pop_Push]

/-! ### Go `int` -/

theorem wrapInt_range (n : Int) : -2 ^ 63 ≤ wrapInt n ∧ wrapInt n < 2 ^ 63 := by
  unfold wrapInt intBits
  constructor <;> omega

theorem wrapInt_congruent (n : Int) : (wrapInt n - n) % 2 ^ 64 = 0 := by
  unfold wrapInt intBits
  omega

theorem wrapInt_of_range {n : Int} (h1 : -2 ^ 63 ≤ n) (h2 : n < 2 ^ 63) : wrapInt n = n := by
  unfold wrapInt intBits
  omega

/-! ### What each operator does with the two operands on the stack -/

theorem EvaluateOperator_Sum (scope : ScopeRef) (x y : EvalValue) (st : State) :
    EvaluateOperator (.K_OPERATOR "+") scope (Push scope x (Push scope y st))
      = Sum x y (st.write (.OP (.K_OPERATOR "+"))) := by
  simp [EvaluateOperator, Statement.BodyEq, write_Push, applyToPops_Push]

theorem EvaluateOperator_Mul (scope : ScopeRef) (x y : EvalValue) (st : State) :
    EvaluateOperator (.K_OPERATOR "*") scope (Push scope x (Push scope y st))
      = Mul x y (st.write (.OP (.K_OPERATOR "*"))) := by
  simp [EvaluateOperator, Statement.BodyEq, write_Push, applyToPops_Push]

theorem EvaluateOperator_Div (scope : ScopeRef) (x y : EvalValue) (st : State) :
    EvaluateOperator (.K_OPERATOR "/") scope (Push scope x (Push scope y st))
      = Div x y (st.write (.OP (.K_OPERATOR "/"))) := by
  simp [EvaluateOperator, Statement.BodyEq, write_Push, applyToPops_Push]

theorem EvaluateOperator_Sub (scope : ScopeRef) (x y : EvalValue) (st : State) :
    EvaluateOperator (.K_OPERATOR "-") scope (Push scope x (Push scope y st))
      = Sub x y (st.write (.OP (.K_OPERATOR "-"))) := by
  simp [EvaluateOperator, Statement.BodyEq, write_Push, applyToPops_Push]

theorem EvaluateOperator_GreaterThan (scope : ScopeRef) (x y : EvalValue) (st : State) :
    EvaluateOperator (.K_OPERATOR "greater") scope (Push scope x (Push scope y st))
      = GreaterThan x y (st.write (.OP (.K_OPERATOR "greater"))) := by
  simp [EvaluateOperator, Statement.BodyEq, write_Push, applyToPops_Push]

theorem EvaluateOperator_SmallerThan (scope : ScopeRef) (x y : EvalValue) (st : State) :
    EvaluateOperator (.K_OPERATOR "smaller") scope (Push scope x (Push scope y st))
      = SmallerThan x y (st.write (.OP (.K_OPERATOR "smaller"))) := by
  simp [EvaluateOperator, Statement.BodyEq, write_Push, applyToPops_Push]

theorem EvaluateOperator_Equal (scope : ScopeRef) (x y : EvalValue) (st : State) :
    EvaluateOperator (.K_OPERATOR "==") scope (Push scope x (Push scope y st))
      = Equal x y (st.write (.OP (.K_OPERATOR "=="))) := by
  simp [EvaluateOperator, Statement.BodyEq, write_Push, applyToPops_Push]

theorem EvaluateOperator_NotEqual (scope : ScopeRef) (x y : EvalValue) (st : State) :
    EvaluateOperator (.K_OPERATOR "!=") scope (Push scope x (Push scope y st))
      = NotEqual x y (st.write (.OP (.K_OPERATOR "!="))) := by
  simp [EvaluateOperator, Statement.BodyEq, write_Push, applyToPops_Push]

/-! ### C1 to C8: the operators -/

/-- C1 (the code departs from the claim). With the left operand `a` pushed
first and the right operand `b` second, `-` yields `b - a` and `/` yields the
truncated quotient `b / a` (a panic when `a = 0`): `Sub` and `Div` compute
`right OP left`. So `5 3 -` evaluates to `-2`, not `2`, and `6 3 /` to `0`, not
`2`. Only `*`, which is commutative, agrees with the claim. -/
theorem Sub_Div_operands_swapped :
    (∀ (a b : Int) (scope : ScopeRef) (st : State),
      EvaluateOperator (.K_OPERATOR "-") scope (Push scope (Number b) (Push scope (Number a) st))
        = .ok (Number (wrapInt (b - a))) (st.write (.OP (.K_OPERATOR "-")))) ∧
    (∀ (a b : Int) (scope : ScopeRef) (st : State),
      EvaluateOperator (.K_OPERATOR "/") scope (Push scope (Number b) (Push scope (Number a) st))
        = if a = 0 then .fail (.GoPanic .integerDivideByZero) (st.write (.OP (.K_OPERATOR "/")))
          else .ok (Number (wrapInt (Int.tdiv b a))) (st.write (.OP (.K_OPERATOR "/")))) ∧
    (∀ (a b : Int) (scope : ScopeRef) (st : State),
      EvaluateOperator (.K_OPERATOR "*") scope (Push scope (Number b) (Push scope (Number a) st))
        = .ok (Number (wrapInt (a * b))) (st.write (.OP (.K_OPERATOR "*")))) ∧
    (EvaluateExpression (.mk [.K_NUMBER 5, .K_NUMBER 3, .K_OPERATOR "-"])
      .interpreterScope initialState).result = .ok (Number (-2)) ∧
    (EvaluateExpression (.mk [.K_NUMBER 6, .K_NUMBER 3, .K_OPERATOR "/"])
      .interpreterScope initialState).result = .ok (Number 0) := by
  refine ⟨?_, ?_, ?_, rfl, rfl⟩
  · intro a b scope st
    rw [EvaluateOperator_Sub]
    rfl
  · intro a b scope st
    rw [EvaluateOperator_Div]
    by_cases h : a = 0
    · subst h; rfl
    · simp [Div, Number, EvalValue.IsNumber, h]
  · intro a b scope st
    rw [EvaluateOperator_Mul, mul_comm a b]
    rfl

/-- C2 (the code departs from the claim). Dividing the left operand `a` by the
right operand `0` computes `0 / a`: for `a ≠ 0` it returns the Number `0`, and
only for `a = 0` does it abort, with Go's integer-divide-by-zero panic. So
`5 0 /` evaluates to `0`. -/
theorem Div_by_right_operand_zero :
    (∀ (a : Int) (scope : ScopeRef) (st : State),
      EvaluateOperator (.K_OPERATOR "/") scope (Push scope (Number 0) (Push scope (Number a) st))
        = if a = 0 then .fail (.GoPanic .integerDivideByZero) (st.write (.OP (.K_OPERATOR "/")))
          else .ok (Number 0) (st.write (.OP (.K_OPERATOR "/")))) ∧
    (EvaluateExpression (.mk [.K_NUMBER 5, .K_NUMBER 0, .K_OPERATOR "/"])
      .interpreterScope initialState).result = .ok (Number 0) := by
  refine ⟨?_, rfl⟩
  intro a scope st
  rw [EvaluateOperator_Div]
  by_cases h : a = 0
  · subst h; rfl
  · have h0 : wrapInt 0 = 0 := by decide
    simp [Div, Number, EvalValue.IsNumber, h, h0]

/-- C3. With the Number `a` pushed first and the Number `b` second, `+` yields
an `EvalValue` of Type Number holding `wrapInt (a + b)`, which is the value of
`a + b` in 64-bit two's-complement arithmetic: it lies in the `int` range and
differs from `a + b` by a multiple of `2 ^ 64`. -/
theorem Sum_numbers (a b : Int) (scope : ScopeRef) (st : State) :
    EvaluateOperator (.K_OPERATOR "+") scope (Push scope (Number b) (Push scope (Number a) st))
      = .ok ⟨.VAR_TYPE_NUMBER, .int (wrapInt (a + b))⟩
          ((st.write (.OP (.K_OPERATOR "+"))).write (.Sum (Number b) (Number a))) ∧
    (-2 ^ 63 ≤ wrapInt (a + b) ∧ wrapInt (a + b) < 2 ^ 63) ∧
    (wrapInt (a + b) - (a + b)) % 2 ^ 64 = 0 := by
  refine ⟨?_, wrapInt_range _, wrapInt_congruent _⟩
  rw [EvaluateOperator_Sum]
  rfl

/-- C4. With the String `s` pushed first and the String `t` second, `+` yields
a value whose underlying datum is the string `s ++ t` (the Type tag `Sum` puts
on it is `VAR_TYPE_NUMBER`); `"foo" "bar" +` evaluates to the datum
`"foobar"`. -/
theorem Sum_strings :
    (∀ (s t : String) (scope : ScopeRef) (st : State),
      EvaluateOperator (.K_OPERATOR "+") scope (Push scope (Str t) (Push scope (Str s) st))
        = .ok ⟨.VAR_TYPE_NUMBER, .string (s ++ t)⟩
            ((st.write (.OP (.K_OPERATOR "+"))).write (.Sum (Str t) (Str s)))) ∧
    (EvaluateExpression (.mk [.K_STRING "foo", .K_STRING "bar", .K_OPERATOR "+"])
      .interpreterScope initialState).result = .ok ⟨.VAR_TYPE_NUMBER, .string "foobar"⟩ := by
  refine ⟨?_, rfl⟩
  intro s t scope st
  rw [EvaluateOperator_Sum]
  rfl

/-- C5. With the Number `a` pushed first and the Number `b` second, `greater`
yields the Boolean `a > b` and `smaller` the Boolean `a < b`, both of Type
Boolean. -/
theorem GreaterThan_SmallerThan_numbers (a b : Int) (scope : ScopeRef) (st : State) :
    EvaluateOperator (.K_OPERATOR "greater") scope
        (Push scope (Number b) (Push scope (Number a) st))
      = .ok ⟨.VAR_TYPE_BOOLEAN, .bool (decide (a > b))⟩ (st.write (.OP (.K_OPERATOR "greater"))) ∧
    EvaluateOperator (.K_OPERATOR "smaller") scope
        (Push scope (Number b) (Push scope (Number a) st))
      = .ok ⟨.VAR_TYPE_BOOLEAN, .bool (decide (a < b))⟩ (st.write (.OP (.K_OPERATOR "smaller"))) := by
  rw [EvaluateOperator_GreaterThan, EvaluateOperator_SmallerThan]
  exact ⟨rfl, rfl⟩

/-- C6. For two Numbers `a`, `b` and for two Strings `s`, `t` (left operand
pushed first), `==` yields a value whose underlying datum is the boolean
`left = right`, and `!=` one whose datum is the boolean `left ≠ right`. -/
theorem Equal_NotEqual_datum (a b : Int) (s t : String) (scope : ScopeRef) (st : State) :
    (∃ typ, EvaluateOperator (.K_OPERATOR "==") scope
        (Push scope (Number b) (Push scope (Number a) st))
      = .ok ⟨typ, .bool (decide (a = b))⟩ (st.write (.OP (.K_OPERATOR "==")))) ∧
    (∃ typ, EvaluateOperator (.K_OPERATOR "!=") scope
        (Push scope (Number b) (Push scope (Number a) st))
      = .ok ⟨typ, .bool (decide (a ≠ b))⟩ (st.write (.OP (.K_OPERATOR "!=")))) ∧
    (∃ typ, EvaluateOperator (.K_OPERATOR "==") scope
        (Push scope (Str t) (Push scope (Str s) st))
      = .ok ⟨typ, .bool (decide (s = t))⟩ (st.write (.OP (.K_OPERATOR "==")))) ∧
    (∃ typ, EvaluateOperator (.K_OPERATOR "!=") scope
        (Push scope (Str t) (Push scope (Str s) st))
      = .ok ⟨typ, .bool (decide (s ≠ t))⟩ (st.write (.OP (.K_OPERATOR "!=")))) := by
  rw [EvaluateOperator_Equal, EvaluateOperator_NotEqual, EvaluateOperator_Equal,
    EvaluateOperator_NotEqual]
  refine ⟨⟨.VAR_TYPE_BOOLEAN, ?_⟩, ⟨.VAR_TYPE_BOOLEAN, ?_⟩, ⟨.VAR_TYPE_NUMBER, ?_⟩,
    ⟨.VAR_TYPE_NUMBER, ?_⟩⟩
  · rfl
  · simp [NotEqual, Number, EvalValue.IsNumber, EvalValue.IsString, bne]
    rfl
  · rfl
  · simp [NotEqual, Str, EvalValue.IsNumber, EvalValue.IsString, bne]
    rfl

/-- C7 (the code departs from the claim). With a Number pushed first and a
Boolean second, `+` passes both checks of `Sum` and aborts in the final
unchecked cast `x.Value.(int)`, with a Go panic and no `[RuntimeError]`; so
does a Boolean on the left of a String. `1 2 3 greater +` is such a run. -/
theorem Sum_number_boolean_panics :
    (∀ (a : Int) (b : Bool) (scope : ScopeRef) (st : State),
      EvaluateOperator (.K_OPERATOR "+") scope (Push scope (Boolean b) (Push scope (Number a) st))
        = .fail (.GoPanic .interfaceConversion)
            ((st.write (.OP (.K_OPERATOR "+"))).write (.Sum (Boolean b) (Number a)))) ∧
    (∀ (b : Bool) (s : String) (scope : ScopeRef) (st : State),
      EvaluateOperator (.K_OPERATOR "+") scope (Push scope (Str s) (Push scope (Boolean b) st))
        = .fail (.GoPanic .interfaceConversion)
            ((st.write (.OP (.K_OPERATOR "+"))).write (.Sum (Str s) (Boolean b)))) ∧
    (EvaluateExpression
      (.mk [.K_NUMBER 1, .K_NUMBER 2, .K_NUMBER 3, .K_OPERATOR "greater", .K_OPERATOR "+"])
      .interpreterScope initialState).result = .error (.GoPanic .interfaceConversion) := by
  refine ⟨?_, ?_, rfl⟩
  · intro a b scope st
    rw [EvaluateOperator_Sum]
    rfl
  · intro b s scope st
    rw [EvaluateOperator_Sum]
    rfl

/-- C8 (the code departs from the claim). With a Number pushed first and a
String second, each of `-`, `*`, `/`, `greater`, `smaller`, `==` and `!=`
passes its type check, which only asks that one operand be a Number (for `==`
and `!=`: a Number or a String), and aborts in the unchecked cast of the
String to `int`, with a Go panic and no `[RuntimeError]`. `1 "a" *` is such a
run. -/
theorem operators_number_string_panic :
    (∀ (a : Int) (s : String) (scope : ScopeRef) (st : State),
      EvaluateOperator (.K_OPERATOR "-") scope (Push scope (Str s) (Push scope (Number a) st))
        = .fail (.GoPanic .interfaceConversion) (st.write (.OP (.K_OPERATOR "-")))) ∧
    (∀ (a : Int) (s : String) (scope : ScopeRef) (st : State),
      EvaluateOperator (.K_OPERATOR "*") scope (Push scope (Str s) (Push scope (Number a) st))
        = .fail (.GoPanic .interfaceConversion) (st.write (.OP (.K_OPERATOR "*")))) ∧
    (∀ (a : Int) (s : String) (scope : ScopeRef) (st : State),
      EvaluateOperator (.K_OPERATOR "/") scope (Push scope (Str s) (Push scope (Number a) st))
        = .fail (.GoPanic .interfaceConversion) (st.write (.OP (.K_OPERATOR "/")))) ∧
    (∀ (a : Int) (s : String) (scope : ScopeRef) (st : State),
      EvaluateOperator (.K_OPERATOR "greater") scope (Push scope (Str s) (Push scope (Number a) st))
        = .fail (.GoPanic .interfaceConversion) (st.write (.OP (.K_OPERATOR "greater")))) ∧
    (∀ (a : Int) (s : String) (scope : ScopeRef) (st : State),
      EvaluateOperator (.K_OPERATOR "smaller") scope (Push scope (Str s) (Push scope (Number a) st))
        = .fail (.GoPanic .interfaceConversion) (st.write (.OP (.K_OPERATOR "smaller")))) ∧
    (∀ (a : Int) (s : String) (scope : ScopeRef) (st : State),
      EvaluateOperator (.K_OPERATOR "==") scope (Push scope (Str s) (Push scope (Number a) st))
        = .fail (.GoPanic .interfaceConversion) (st.write (.OP (.K_OPERATOR "==")))) ∧
    (∀ (a : Int) (s : String) (scope : ScopeRef) (st : State),
      EvaluateOperator (.K_OPERATOR "!=") scope (Push scope (Str s) (Push scope (Number a) st))
        = .fail (.GoPanic .interfaceConversion) (st.write (.OP (.K_OPERATOR "!=")))) ∧
    (EvaluateExpression (.mk [.K_NUMBER 1, .K_STRING "a", .K_OPERATOR "*"])
      .interpreterScope initialState).result = .error (.GoPanic .interfaceConversion) := by
  refine ⟨?_, ?_, ?_, ?_, ?_, ?_, ?_, rfl⟩
  · intro a s scope st
    rw [EvaluateOperator_Sub]
    rfl
  · intro a s scope st
    rw [EvaluateOperator_Mul]
    rfl
  · intro a s scope st
    rw [EvaluateOperator_Div]
    rfl
  · intro a s scope st
    rw [EvaluateOperator_GreaterThan]
    rfl
  · intro a s scope st
    rw [EvaluateOperator_SmallerThan]
    rfl
  · intro a s scope st
    rw [EvaluateOperator_Equal]
    rfl
  · intro a s scope st
    rw [EvaluateOperator_NotEqual]
    rfl

/-! ### Variables are only ever added -/

theorem Keeps.refl (st : State) : Keeps st st := List.prefix_rfl

theorem Keeps.trans {a b c : State} (h1 : Keeps a b) (h2 : Keeps b c) : Keeps a c :=
  List.IsPrefix.trans h1 h2

theorem Keeps.of_eq {a b : State} (h : b.Scope.Variables = a.Scope.Variables) : Keeps a b := by
  unfold Keeps; rw [h]

theorem Scope_Pop_keeps_Variables {s s1 : Scope} {v : EvalValue} (h : s.Pop = some (v, s1)) :
    s1.Variables = s.Variables := by
  unfold Scope.Pop at h
  split at h
  · cases h
  · cases h; rfl

theorem Pop_Variables (scope : ScopeRef) (st : State) :
    (Pop scope st).state.Scope.Variables = st.Scope.Variables := by
  unfold Pop
  cases h : (st.deref scope).Pop with
  | none => rfl
  | some p =>
    obtain ⟨v, s1⟩ := p
    have hv := Scope_Pop_keeps_Variables h
    cases scope
    · exact hv
    · rfl

theorem Pop_keeps (scope : ScopeRef) (st : State) : Keeps st (Pop scope st).state :=
  Keeps.of_eq (Pop_Variables scope st)

theorem Push_keeps (scope : ScopeRef) (v : EvalValue) (st : State) : Keeps st (Push scope v st) :=
  Keeps.of_eq (by cases scope <;> rfl)

theorem write_keeps (st : State) (e : Event) : Keeps st (st.write e) := Keeps.of_eq rfl

theorem Sum_Scope (x y : EvalValue) (st : State) : (Sum x y st).state.Scope = st.Scope := by
  unfold Sum threwError
  simp only []
  split_ifs <;> (try split) <;> rfl

theorem Mul_Scope (x y : EvalValue) (st : State) : (Mul x y st).state.Scope = st.Scope := by
  unfold Mul threwError
  split_ifs <;> (try split) <;> rfl

theorem Div_Scope (x y : EvalValue) (st : State) : (Div x y st).state.Scope = st.Scope := by
  unfold Div threwError
  split_ifs <;> (try split) <;> (try split_ifs) <;> rfl

theorem Sub_Scope (x y : EvalValue) (st : State) : (Sub x y st).state.Scope = st.Scope := by
  unfold Sub threwError
  split_ifs <;> (try split) <;> rfl

theorem GreaterThan_Scope (x y : EvalValue) (st : State) :
    (GreaterThan x y st).state.Scope = st.Scope := by
  unfold GreaterThan threwError
  split_ifs <;> (try split) <;> rfl

theorem SmallerThan_Scope (x y : EvalValue) (st : State) :
    (SmallerThan x y st).state.Scope = st.Scope := by
  unfold SmallerThan threwError
  split_ifs <;> (try split) <;> rfl

theorem Equal_Scope (x y : EvalValue) (st : State) : (Equal x y st).state.Scope = st.Scope := by
  unfold Equal threwError
  split_ifs <;> (try split) <;> rfl

theorem NotEqual_Scope (x y : EvalValue) (st : State) :
    (NotEqual x y st).state.Scope = st.Scope := by
  unfold NotEqual threwError
  split_ifs <;> (try split) <;> rfl

theorem applyToPops_keeps (f : EvalValue → EvalValue → State → Outcome EvalValue)
    (hf : ∀ x y st, (f x y st).state.Scope = st.Scope) (scope : ScopeRef) (st : State) :
    Keeps st (applyToPops f scope st).state := by
  unfold applyToPops
  have h1 := Pop_keeps scope st
  cases hp : Pop scope st with
  | fail e st1 => rw [hp] at h1; exact h1
  | ok x st1 =>
    rw [hp] at h1
    have h2 := Pop_keeps scope st1
    dsimp only
    cases hq : Pop scope st1 with
    | fail e st2 => rw [hq] at h2; exact h1.trans h2
    | ok y st2 =>
      rw [hq] at h2
      exact (h1.trans h2).trans (Keeps.of_eq (by rw [hf]; rfl))

theorem EvaluateOperator_keeps (expr : Statement) (scope : ScopeRef) (st : State) :
    Keeps st (EvaluateOperator expr scope st).state := by
  unfold EvaluateOperator
  simp only []
  refine (write_keeps st (.OP expr)).trans ?_
  split_ifs
  · exact applyToPops_keeps _ Sum_Scope _ _
  · exact applyToPops_keeps _ Mul_Scope _ _
  · exact applyToPops_keeps _ Div_Scope _ _
  · exact applyToPops_keeps _ Sub_Scope _ _
  · exact applyToPops_keeps _ GreaterThan_Scope _ _
  · exact applyToPops_keeps _ SmallerThan_Scope _ _
  · exact applyToPops_keeps _ Equal_Scope _ _
  · exact applyToPops_keeps _ NotEqual_Scope _ _
  · exact Keeps.refl _

theorem EvaluateIdentifier_keeps (name : String) (scope : ScopeRef) (st : State) :
    Keeps st (EvaluateIdentifier name scope st).state := by
  unfold EvaluateIdentifier threwError
  split <;> exact Keeps.refl _

theorem EvaluateNativeFunction_keeps (function : RuntimeFunctionCall) (params : Parameters)
    (st : State) : Keeps st (EvaluateNativeFunction function params st).state := by
  unfold EvaluateNativeFunction RuntimeFunctionCall.call NativePrint NativeIfStatement
  split <;> split <;> exact Keeps.of_eq rfl

theorem DefineVariable_prefix {s s1 : Scope} {v : Variable} {isOk : Bool}
    (h : s.DefineVariable v = (isOk, s1)) : s.Variables <+: s1.Variables := by
  unfold Scope.DefineVariable at h
  split at h <;> cases h
  · exact List.prefix_rfl
  · exact List.prefix_append _ _

theorem EvaluateLetDeclaration_define_keeps (evaluated : Outcome Parameters) :
    Keeps evaluated.state (EvaluateLetDeclaration.define evaluated).state := by
  unfold EvaluateLetDeclaration.define threwError
  split
  · exact Keeps.refl _
  · split
    · exact Keeps.refl _
    · split
      · exact Keeps.refl _
      · split
        · split
          all_goals exact DefineVariable_prefix (by assumption)
        · exact Keeps.refl _

/-! Every evaluation function leaves the variables of `interpreter.Scope` in
place, whether it returns or aborts: by structural recursion on the statement
tree, one theorem for each function of the evaluator. -/

mutual
theorem Evaluate_keeps : ∀ (statement : Statement) (scope : ScopeRef) (st : State),
    Keeps st (Evaluate statement scope st).state
  | .K_OPEN_TAG Body, scope, st => by
    rw [Evaluate]; exact EvaluateOpenTag_keeps Body scope st
  | .K_CLOSE_TAG Body, scope, st => by
    rw [Evaluate]; exact EvaluateCloseTag_keeps Body scope st
  | .K_PARAMETER_VALUE Body, scope, st => by
    rw [Evaluate]; exact Evaluate_keeps Body scope st
  | .K_IDENTIFIER Body, scope, st => by
    rw [Evaluate]; exact EvaluateIdentifier_keeps Body scope st
  | .K_IF_STATEMENT Body, scope, st => by
    rw [Evaluate]; exact EvaluateIfStatement_keeps Body scope st
  | .K_EXPRESSION Body, scope, st => by
    rw [Evaluate]; exact EvaluateExpression_keeps Body scope st
  | .K_NUMBER _, _, st => by rw [Evaluate]; exact Keeps.refl st
  | .K_STRING _, _, st => by rw [Evaluate]; exact Keeps.refl st
  | .K_EOF, _, st => by rw [Evaluate]; exact Keeps.refl st
  | .K_PARAMETERS, _, st => by rw [Evaluate]; exact write_keeps st _
  | .K_OPERATOR _, _, st => by rw [Evaluate]; exact write_keeps st _
theorem EvaluateOpenTag_keeps : ∀ (openTag : OpenTag) (scope : ScopeRef) (st : State),
    Keeps st (EvaluateOpenTag openTag scope st).state
  | .mk _ _ children, _, st => by
    rw [EvaluateOpenTag]
    have h := EvaluateOpenTag_range_keeps children { st with newScope := ⟨[], []⟩ }
    cases hr : EvaluateOpenTag.range children { st with newScope := ⟨[], []⟩ } with
    | fail e st1 => rw [hr] at h; exact h
    | ok v st1 => rw [hr] at h; exact h
theorem EvaluateOpenTag_range_keeps : ∀ (children : List Statement) (st : State),
    Keeps st (EvaluateOpenTag.range children st).state
  | [], st => by rw [EvaluateOpenTag.range]; exact Keeps.refl st
  | .K_IF_STATEMENT Body :: _, st => by
    rw [EvaluateOpenTag.range]; exact EvaluateIfStatement_keeps Body .newScope st
  | .K_CLOSE_TAG Body :: rest, st => by
    rw [EvaluateOpenTag.range]
    have h := EvaluateCloseTag_keeps Body .newScope st
    cases hr : EvaluateCloseTag Body .newScope st with
    | fail e st1 => rw [hr] at h; exact h
    | ok v st1 => rw [hr] at h; exact h.trans (EvaluateOpenTag_range_keeps rest st1)
  | .K_OPEN_TAG Body :: rest, st => by
    rw [EvaluateOpenTag.range]
    have h := Evaluate_keeps (.K_OPEN_TAG Body) .newScope st
    cases hr : Evaluate (.K_OPEN_TAG Body) .newScope st with
    | fail e st1 => rw [hr] at h; exact h
    | ok v st1 => rw [hr] at h; exact h.trans (EvaluateOpenTag_range_keeps rest st1)
  | .K_EOF :: rest, st => by
    rw [EvaluateOpenTag.range] <;>
      first | exact EvaluateOpenTag_range_keeps rest st | (intro _ h; cases h)
  | .K_PARAMETERS :: rest, st => by
    rw [EvaluateOpenTag.range] <;>
      first | exact EvaluateOpenTag_range_keeps rest st | (intro _ h; cases h)
  | .K_PARAMETER_VALUE _ :: rest, st => by
    rw [EvaluateOpenTag.range] <;>
      first | exact EvaluateOpenTag_range_keeps rest st | (intro _ h; cases h)
  | .K_IDENTIFIER _ :: rest, st => by
    rw [EvaluateOpenTag.range] <;>
      first | exact EvaluateOpenTag_range_keeps rest st | (intro _ h; cases h)
  | .K_NUMBER _ :: rest, st => by
    rw [EvaluateOpenTag.range] <;>
      first | exact EvaluateOpenTag_range_keeps rest st | (intro _ h; cases h)
  | .K_STRING _ :: rest, st => by
    rw [EvaluateOpenTag.range] <;>
      first | exact EvaluateOpenTag_range_keeps rest st | (intro _ h; cases h)
  | .K_EXPRESSION _ :: rest, st => by
    rw [EvaluateOpenTag.range] <;>
      first | exact EvaluateOpenTag_range_keeps rest st | (intro _ h; cases h)
  | .K_OPERATOR _ :: rest, st => by
    rw [EvaluateOpenTag.range] <;>
      first | exact EvaluateOpenTag_range_keeps rest st | (intro _ h; cases h)
theorem EvaluateCloseTag_keeps : ∀ (closeTag : CloseTag) (scope : ScopeRef) (st : State),
    Keeps st (EvaluateCloseTag closeTag scope st).state
  | .mk name Params, scope, st => by
    rw [EvaluateCloseTag]
    have hp := EvaluateParameters_range_keeps Params scope [] st
    split
    · exact hp.trans (EvaluateLetDeclaration_define_keeps _)
    · split
      · exact Keeps.refl st
      · split
        · split
          · cases hr : EvaluateParameters.range Params scope [] st with
            | fail e st1 => rw [hr] at hp; exact hp
            | ok v st1 => rw [hr] at hp; exact hp.trans (EvaluateNativeFunction_keeps _ _ _)
          · exact Keeps.refl st
        · exact Keeps.refl st
theorem EvaluateParameters_range_keeps : ∀ (parameters : List Parameter) (scope : ScopeRef)
    (params : Parameters) (st : State),
    Keeps st (EvaluateParameters.range parameters scope params st).state
  | [], _, _, st => by rw [EvaluateParameters.range]; exact Keeps.refl st
  | .mk Key Value :: rest, scope, params, st => by
    rw [EvaluateParameters.range]
    have h := Evaluate_keeps Value scope st
    cases hr : Evaluate Value scope st with
    | fail e st1 => rw [hr] at h; exact h
    | ok v st1 =>
      rw [hr] at h
      exact h.trans (EvaluateParameters_range_keeps rest scope (params.set Key v) st1)
theorem EvaluateIfStatement_keeps : ∀ (openTag : OpenTag) (scope : ScopeRef) (st : State),
    Keeps st (EvaluateIfStatement openTag scope st).state
  | .mk _ [] _, _, st => by rw [EvaluateIfStatement]; exact Keeps.refl st
  | .mk _ (param :: _) nodes, scope, st => by
    rw [EvaluateIfStatement]
    have h := EvaluateCondition_keeps param scope st
    cases hr : EvaluateCondition param scope st with
    | fail e st1 => rw [hr] at h; exact h
    | ok result st1 =>
      rw [hr] at h
      dsimp only
      split
      · have h2 := EvaluateIfStatement_range_keeps nodes scope st1
        cases hn : EvaluateIfStatement.range nodes scope st1 with
        | fail e st2 => rw [hn] at h2; exact h.trans h2
        | ok u st2 => rw [hn] at h2; exact h.trans h2
      · exact h
theorem EvaluateIfStatement_range_keeps : ∀ (nodes : List Statement) (scope : ScopeRef)
    (st : State), Keeps st (EvaluateIfStatement.range nodes scope st).state
  | [], _, st => by rw [EvaluateIfStatement.range]; exact Keeps.refl st
  | node :: rest, scope, st => by
    rw [EvaluateIfStatement.range]
    have h := Evaluate_keeps node scope st
    cases hr : Evaluate node scope st with
    | fail e st1 => rw [hr] at h; exact h
    | ok v st1 => rw [hr] at h; exact h.trans (EvaluateIfStatement_range_keeps rest scope st1)
theorem EvaluateCondition_keeps : ∀ (param : Parameter) (scope : ScopeRef) (st : State),
    Keeps st (EvaluateCondition param scope st).state
  | .mk Key Value, scope, st => by
    rw [EvaluateCondition]
    split
    · exact Keeps.refl st
    · exact Evaluate_keeps Value scope st
theorem EvaluateExpression_keeps : ∀ (expr : Expression) (scope : ScopeRef) (st : State),
    Keeps st (EvaluateExpression expr scope st).state
  | .mk statements, scope, st => by
    rw [EvaluateExpression]
    have h := EvaluateExpression_range_keeps statements scope st
    cases hr : EvaluateExpression.range statements scope st with
    | fail e st1 => rw [hr] at h; exact h
    | ok v st1 => rw [hr] at h; exact h.trans (Pop_keeps scope st1)
theorem EvaluateExpression_range_keeps : ∀ (statements : List Statement) (scope : ScopeRef)
    (st : State), Keeps st (EvaluateExpression.range statements scope st).state
  | [], _, st => by rw [EvaluateExpression.range]; exact Keeps.refl st
  | ex :: rest, scope, st => by
    have he := Evaluate_keeps ex scope st
    have ho := EvaluateOperator_keeps ex scope st
    have hrest := EvaluateExpression_range_keeps rest scope
    cases ex
    case K_OPERATOR Body =>
      rw [EvaluateExpression.range]
      cases hr : EvaluateOperator (.K_OPERATOR Body) scope st with
      | fail e st1 => rw [hr] at ho; exact ho
      | ok v st1 => rw [hr] at ho; exact (ho.trans (Push_keeps scope v st1)).trans (hrest _)
    all_goals
      rw [EvaluateExpression.range] <;>
      first
      | (intro _ h; cases h)
      | (generalize Evaluate _ scope st = o at he
         cases o with
         | fail e st1 => exact he
         | ok v st1 => exact (he.trans (Push_keeps scope v st1)).trans (hrest _))
end

/-- A variable that is defined keeps its binding along `Keeps`. -/
theorem Keeps.GetVariable {st st1 : State} (h : Keeps st st1) {m : String} {var : Variable}
    (hm : st.Scope.GetVariable m = some var) : st1.Scope.GetVariable m = some var := by
  obtain ⟨l, hl⟩ := h
  unfold Scope.GetVariable at hm ⊢
  rw [← hl, List.find?_append, hm]
  rfl

/-- A CloseTag named `Let` is evaluated by `EvaluateLetDeclaration`. -/
theorem EvaluateCloseTag_Let (params : List Parameter) (scope : ScopeRef) (st : State) :
    EvaluateCloseTag (.mk "Let" params) scope st
      = EvaluateLetDeclaration (.mk "Let" params) scope st := by
  rw [EvaluateCloseTag]
  rfl

/-- The parameters `id = String n`, `value = e` evaluate to the mapping of
`id` to the String `n` and of `value` to the value of `e`. -/
theorem EvaluateParameters_id_value (n : String) (value : Statement) (scope : ScopeRef)
    (st : State) :
    EvaluateParameters [.mk "id" (.K_STRING n), .mk "value" value] scope st
      = match Evaluate value scope st with
        | .fail e st1 => .fail e st1
        | .ok v st1 => .ok [("id", Str n), ("value", v)] st1 := by
  unfold EvaluateParameters
  rw [EvaluateParameters.range, Evaluate]
  dsimp only
  rw [EvaluateParameters.range]
  cases Evaluate value scope st with
  | fail e st1 => rfl
  | ok v st1 =>
    dsimp only
    rw [EvaluateParameters.range]
    rfl

/-! ### C9 and C10: the `Let` declaration -/

/-- C9, as amended. Let the `value` parameter evaluate without error to `v`,
in a state `st1` in which `n` is still not defined in `interpreter.Scope`.
Then the CloseTag `Let` with `id` the String `n` returns Undefined; it adds to
`interpreter.Scope` the one variable `n` with `v`'s Value and Type; afterwards
the Identifier `n` evaluates to `v`'s Type and Value; and every variable
defined before the `Let` keeps its binding. -/
theorem Let_defines (n : String) (value : Statement) (scope : ScopeRef) (st st1 : State)
    (v : EvalValue)
    (hv : Evaluate value scope st = .ok v st1)
    (hn : st1.Scope.GetVariable n = none) :
    ∃ st2,
      EvaluateCloseTag (.mk "Let" [.mk "id" (.K_STRING n), .mk "value" value]) scope st
        = .ok Undefined st2 ∧
      st2.Scope.Variables = st1.Scope.Variables ++ [⟨n, v.Value, v.Typ⟩] ∧
      (∀ scope1, EvaluateIdentifier n scope1 st2 = .ok ⟨v.Typ, v.Value⟩ st2) ∧
      (∀ m var, st.Scope.GetVariable m = some var → st2.Scope.GetVariable m = some var) := by
  have hk : Keeps st st1 := by
    have := Evaluate_keeps value scope st
    rw [hv] at this
    exact this
  refine ⟨{ st1 with Scope := { st1.Scope with
    Variables := st1.Scope.Variables ++ [⟨n, v.Value, v.Typ⟩] } }, ?_, rfl, ?_, ?_⟩
  · rw [EvaluateCloseTag_Let]
    unfold EvaluateLetDeclaration
    simp only [CloseTag.Params]
    rw [EvaluateParameters_id_value, hv]
    simp [EvaluateLetDeclaration.define, Parameters.get, Str, Scope.DefineVariable, hn]
  · intro scope1
    have : Scope.GetVariable { st1.Scope with
        Variables := st1.Scope.Variables ++ [⟨n, v.Value, v.Typ⟩] } n
        = some ⟨n, v.Value, v.Typ⟩ := by
      unfold Scope.GetVariable at hn ⊢
      simp [List.find?_append, hn]
    simp [EvaluateIdentifier, this]
  · intro m var hm
    have h1 := hk.GetVariable hm
    unfold Scope.GetVariable at h1 ⊢
    simp [List.find?_append, h1]

/-- The example of C9: `Let` with `id = "x"` and `value = 5 3 +`, from the
initial state, binds `x` to the Number `8`. -/
theorem Let_defines_witness :
    Evaluate (.K_EXPRESSION (.mk [.K_NUMBER 5, .K_NUMBER 3, .K_OPERATOR "+"]))
        .interpreterScope initialState
      = .ok (Number 8)
          ((initialState.write (.OP (.K_OPERATOR "+"))).write (.Sum (Number 3) (Number 5))) ∧
    ((initialState.write (.OP (.K_OPERATOR "+"))).write
      (.Sum (Number 3) (Number 5))).Scope.GetVariable "x" = none ∧
    ∃ st2,
      EvaluateCloseTag (.mk "Let" [.mk "id" (.K_STRING "x"),
          .mk "value" (.K_EXPRESSION (.mk [.K_NUMBER 5, .K_NUMBER 3, .K_OPERATOR "+"]))])
          .interpreterScope initialState
        = .ok Undefined st2 ∧
      st2.Scope.Variables
        = ((initialState.write (.OP (.K_OPERATOR "+"))).write
            (.Sum (Number 3) (Number 5))).Scope.Variables
          ++ [⟨"x", (Number 8).Value, (Number 8).Typ⟩] ∧
      (∀ scope1, EvaluateIdentifier "x" scope1 st2
        = .ok ⟨(Number 8).Typ, (Number 8).Value⟩ st2) ∧
      (∀ m var, initialState.Scope.GetVariable m = some var →
        st2.Scope.GetVariable m = some var) :=
  ⟨rfl, rfl, Let_defines "x" (.K_EXPRESSION (.mk [.K_NUMBER 5, .K_NUMBER 3, .K_OPERATOR "+"]))
    .interpreterScope initialState _ (Number 8) rfl rfl⟩

/-- C9 as stated fails. `x` is not defined in the initial global Scope, and the
`value` parameter `<Let id="x" value=1/>` evaluates without error (to
Undefined); but it declares `x` itself, so the enclosing `Let` with
`id = "x"` aborts with the `is already declared` error. -/
theorem Let_fresh_name_declared_by_value :
    initialState.Scope.GetVariable "x" = none ∧
    (Evaluate (.K_CLOSE_TAG (.mk "Let" [.mk "id" (.K_STRING "x"), .mk "value" (.K_NUMBER 1)]))
      .interpreterScope initialState).result = .ok Undefined ∧
    (EvaluateCloseTag (.mk "Let" [.mk "id" (.K_STRING "x"),
        .mk "value" (.K_CLOSE_TAG
          (.mk "Let" [.mk "id" (.K_STRING "x"), .mk "value" (.K_NUMBER 1)]))])
      .interpreterScope initialState).result
      = .error (.RuntimeError "[RuntimeError] \x7bstring x\x7d is already declared") :=
  ⟨rfl, rfl, rfl⟩

theorem deref_write (scope : ScopeRef) (st : State) (e : Event) :
    (st.write e).deref scope = st.deref scope := by
  cases scope <;> rfl

theorem deref_Push (scope : ScopeRef) (v : EvalValue) (st : State) :
    ((Push scope v st).deref scope).Stack = v :: (st.deref scope).Stack := by
  cases scope <;> rfl

theorem Pop_cons {scope : ScopeRef} {st : State} {x : EvalValue} {s : List EvalValue}
    (h : (st.deref scope).Stack = x :: s) :
    ∃ st1, Pop scope st = .ok x st1 ∧ (st1.deref scope).Stack = s := by
  unfold Pop Scope.Pop
  rw [h]
  exact ⟨_, rfl, by cases scope <;> rfl⟩

theorem Sum_deref (scope : ScopeRef) (x y : EvalValue) (st : State) :
    (Sum x y st).state.deref scope = st.deref scope := by
  unfold Sum threwError
  simp only []
  cases scope <;> split_ifs <;> (try split) <;> rfl

theorem Mul_deref (scope : ScopeRef) (x y : EvalValue) (st : State) :
    (Mul x y st).state.deref scope = st.deref scope := by
  unfold Mul threwError
  cases scope <;> split_ifs <;> (try split) <;> rfl

theorem Div_deref (scope : ScopeRef) (x y : EvalValue) (st : State) :
    (Div x y st).state.deref scope = st.deref scope := by
  unfold Div threwError
  cases scope <;> split_ifs <;> (try split) <;> (try split_ifs) <;> rfl

theorem Sub_deref (scope : ScopeRef) (x y : EvalValue) (st : State) :
    (Sub x y st).state.deref scope = st.deref scope := by
  unfold Sub threwError
  cases scope <;> split_ifs <;> (try split) <;> rfl

theorem GreaterThan_deref (scope : ScopeRef) (x y : EvalValue) (st : State) :
    (GreaterThan x y st).state.deref scope = st.deref scope := by
  unfold GreaterThan threwError
  cases scope <;> split_ifs <;> (try split) <;> rfl

theorem SmallerThan_deref (scope : ScopeRef) (x y : EvalValue) (st : State) :
    (SmallerThan x y st).state.deref scope = st.deref scope := by
  unfold SmallerThan threwError
  cases scope <;> split_ifs <;> (try split) <;> rfl

theorem Equal_deref (scope : ScopeRef) (x y : EvalValue) (st : State) :
    (Equal x y st).state.deref scope = st.deref scope := by
  unfold Equal threwError
  cases scope <;> split_ifs <;> (try split) <;> rfl

theorem NotEqual_deref (scope : ScopeRef) (x y : EvalValue) (st : State) :
    (NotEqual x y st).state.deref scope = st.deref scope := by
  unfold NotEqual threwError
  cases scope <;> split_ifs <;> (try split) <;> rfl

/-- An operator helper applied to a stack that holds two values on top of `s`
leaves `s`. -/
theorem applyToPops_Stack (f : EvalValue → EvalValue → State → Outcome EvalValue)
    (scope : ScopeRef) (hf : ∀ x y st, (f x y st).state.deref scope = st.deref scope)
    (st st1 : State) (x y v : EvalValue) (s : List EvalValue)
    (hs : (st.deref scope).Stack = x :: y :: s)
    (hv : applyToPops f scope st = .ok v st1) : (st1.deref scope).Stack = s := by
  unfold applyToPops at hv
  obtain ⟨st2, hp, hs2⟩ := Pop_cons hs
  obtain ⟨st3, hq, hs3⟩ := Pop_cons hs2
  rw [hp] at hv
  dsimp only at hv
  rw [hq] at hv
  dsimp only at hv
  have := hf x y st3
  rw [hv] at this
  rw [← hs3, ← this]
  rfl

/-- A known operator token applied to a stack that holds two values on top of
`s` leaves `s`, when it returns. -/
theorem EvaluateOperator_Stack (Body : String) (scope : ScopeRef) (st st1 : State)
    (x y v : EvalValue) (s : List EvalValue) (hop : IsOperator Body = true)
    (hs : (st.deref scope).Stack = x :: y :: s)
    (hv : EvaluateOperator (.K_OPERATOR Body) scope st = .ok v st1) :
    (st1.deref scope).Stack = s := by
  have hs1 : ((st.write (.OP (.K_OPERATOR Body))).deref scope).Stack = x :: y :: s := by
    rw [deref_write]; exact hs
  simp only [IsOperator, Bool.or_eq_true, beq_iff_eq] at hop
  unfold EvaluateOperator at hv
  simp only [Statement.BodyEq] at hv
  rcases hop with ((((((h | h) | h) | h) | h) | h) | h) | h <;> subst h <;>
    simp only [beq_self_eq_true, if_true] at hv
  · exact applyToPops_Stack _ scope (Sum_deref scope) _ _ _ _ _ _ hs1 hv
  · exact applyToPops_Stack _ scope (Mul_deref scope) _ _ _ _ _ _ hs1 hv
  · exact applyToPops_Stack _ scope (Div_deref scope) _ _ _ _ _ _ hs1 hv
  · exact applyToPops_Stack _ scope (Sub_deref scope) _ _ _ _ _ _ hs1 hv
  · exact applyToPops_Stack _ scope (GreaterThan_deref scope) _ _ _ _ _ _ hs1 hv
  · exact applyToPops_Stack _ scope (SmallerThan_deref scope) _ _ _ _ _ _ hs1 hv
  · exact applyToPops_Stack _ scope (Equal_deref scope) _ _ _ _ _ _ hs1 hv
  · exact applyToPops_Stack _ scope (NotEqual_deref scope) _ _ _ _ _ _ hs1 hv

/-! A well-formed operand leaves the operand stack of `scope` as it found it,
and a postfix sequence that starts with `d` values on top of `base` ends with
the number of values `Postfix.depth` computes, on top of the same `base`: by
structural recursion on the statement tree. -/

mutual
theorem operand_balance : ∀ (x : Statement) (scope : ScopeRef) (st st1 : State) (v : EvalValue),
    x.isOperand = true → Evaluate x scope st = .ok v st1 →
    (st1.deref scope).Stack = (st.deref scope).Stack
  | .K_IDENTIFIER n, scope, st, st1, v, _, hev => by
    rw [Evaluate] at hev
    unfold EvaluateIdentifier threwError at hev
    split at hev <;> cases hev
    rfl
  | .K_NUMBER _, scope, st, st1, v, _, hev => by
    rw [Evaluate] at hev
    cases hev
    rfl
  | .K_STRING _, scope, st, st1, v, _, hev => by
    rw [Evaluate] at hev
    cases hev
    rfl
  | .K_EXPRESSION Body, scope, st, st1, v, hwf, hev => by
    rw [Statement.isOperand] at hwf
    rw [Evaluate] at hev
    exact (expression_balance Body scope st st1 v hwf hev).1
  | .K_EOF, _, _, _, _, hwf, _ => by simp [Statement.isOperand] at hwf
  | .K_OPEN_TAG _, _, _, _, _, hwf, _ => by simp [Statement.isOperand] at hwf
  | .K_CLOSE_TAG _, _, _, _, _, hwf, _ => by simp [Statement.isOperand] at hwf
  | .K_PARAMETERS, _, _, _, _, hwf, _ => by simp [Statement.isOperand] at hwf
  | .K_PARAMETER_VALUE _, _, _, _, _, hwf, _ => by simp [Statement.isOperand] at hwf
  | .K_IF_STATEMENT _, _, _, _, _, hwf, _ => by simp [Statement.isOperand] at hwf
  | .K_OPERATOR _, _, _, _, _, hwf, _ => by simp [Statement.isOperand] at hwf
theorem expression_balance : ∀ (expr : Expression) (scope : ScopeRef) (st st1 : State)
    (v : EvalValue), expr.WellFormed = true → EvaluateExpression expr scope st = .ok v st1 →
    (st1.deref scope).Stack = (st.deref scope).Stack ∧
    ∃ stR, EvaluateExpression.range expr.Statements scope st = .ok () stR ∧
      (stR.deref scope).Stack = v :: (st.deref scope).Stack
  | .mk statements, scope, st, st1, v, hwf, hev => by
    rw [Expression.WellFormed, beq_iff_eq] at hwf
    rw [EvaluateExpression] at hev
    cases hr : EvaluateExpression.range statements scope st with
    | fail e stR => rw [hr] at hev; cases hev
    | ok u stR =>
      rw [hr] at hev
      dsimp only at hev
      obtain ⟨top, htop, hlen⟩ := postfix_balance statements 0 1 scope st stR []
        (st.deref scope).Stack hwf hr rfl rfl
      match top, hlen with
      | [w], _ =>
        obtain ⟨st2, hp, hs2⟩ := Pop_cons (x := w) htop
        rw [hp] at hev
        cases hev
        exact ⟨hs2, stR, hr, htop⟩
theorem postfix_balance : ∀ (statements : List Statement) (d d1 : Nat) (scope : ScopeRef)
    (st st1 : State) (top base : List EvalValue),
    Postfix.depth statements d = some d1 →
    EvaluateExpression.range statements scope st = .ok () st1 →
    (st.deref scope).Stack = top ++ base → top.length = d →
    ∃ top1, (st1.deref scope).Stack = top1 ++ base ∧ top1.length = d1
  | [], d, d1, scope, st, st1, top, base, hd, hev, hs, hlen => by
    rw [Postfix.depth] at hd
    rw [EvaluateExpression.range] at hev
    cases hd
    cases hev
    exact ⟨top, hs, hlen⟩
  | ex :: rest, d, d1, scope, st, st1, top, base, hd, hev, hs, hlen => by
    have hoperand := operand_balance ex scope st
    have hrest := postfix_balance rest
    cases ex
    case K_OPERATOR Body =>
      rw [Postfix.depth] at hd
      rw [EvaluateExpression.range] at hev
      split at hd
      · rename_i hcond
        simp only [Bool.and_eq_true, decide_eq_true_eq] at hcond
        obtain ⟨hop, h2⟩ := hcond
        rcases top with _ | ⟨x, _ | ⟨y, top2⟩⟩
        · simp only [List.length_nil] at hlen
          omega
        · simp only [List.length_cons, List.length_nil] at hlen
          omega
        · cases hv : EvaluateOperator (.K_OPERATOR Body) scope st with
          | fail e st2 => rw [hv] at hev; cases hev
          | ok v st2 =>
            rw [hv] at hev
            have hs2 := EvaluateOperator_Stack Body scope st st2 x y v (top2 ++ base) hop hs hv
            refine hrest (d - 1) d1 scope _ st1 (v :: top2) base hd hev ?_ ?_
            · rw [deref_Push, hs2]; rfl
            · simp only [List.length_cons] at hlen ⊢
              omega
      · cases hd
    all_goals
      rw [Postfix.depth] at hd <;> first
      | (intro _ h; cases h)
      | skip
    all_goals
      rw [EvaluateExpression.range] at hev <;> first
      | (intro _ h; cases h)
      | skip
    all_goals
      split at hd
      · rename_i hop
        generalize hg : Evaluate _ scope st = o at hev
        cases o with
        | fail e st2 => cases hev
        | ok v st2 =>
          have hs2 := hoperand st2 v hop hg
          refine hrest (d + 1) d1 scope _ st1 (v :: top) base hd hev ?_ ?_
          · rw [deref_Push, hs2, hs]; rfl
          · simp [hlen]
      · cases hd
end

theorem frame_write (scope : ScopeRef) (st : State) (e : Event) :
    (st.write e).frame scope = st.frame scope := by
  cases scope <;> rfl

theorem frame_Push (scope : ScopeRef) (v : EvalValue) (st : State) :
    (Push scope v st).frame scope = st.frame scope := by
  cases scope <;> rfl

theorem frame_Pop {scope : ScopeRef} {st st1 : State} {v : EvalValue}
    (h : Pop scope st = .ok v st1) : st1.frame scope = st.frame scope := by
  unfold Pop at h
  cases hp : (st.deref scope).Pop with
  | none => rw [hp] at h; cases h
  | some p =>
    obtain ⟨w, s1⟩ := p
    rw [hp] at h
    cases h
    have hv := Scope_Pop_keeps_Variables hp
    cases scope
    · simp only [State.frame, State.assign]
      rw [hv]
      rfl
    · simp only [State.frame, State.assign]
      rw [hv]
      rfl

theorem frame_of_deref {st st1 : State} (h : ∀ sc, st1.deref sc = st.deref sc)
    (scope : ScopeRef) : st1.frame scope = st.frame scope := by
  have h1 : st1.Scope = st.Scope := h .interpreterScope
  have h2 : st1.newScope = st.newScope := h .newScope
  cases scope <;> simp [State.frame, h1, h2]

theorem applyToPops_frame (f : EvalValue → EvalValue → State → Outcome EvalValue)
    (hf : ∀ sc x y st, (f x y st).state.deref sc = st.deref sc) (scope : ScopeRef)
    (st st1 : State) (v : EvalValue) (hv : applyToPops f scope st = .ok v st1) :
    st1.frame scope = st.frame scope := by
  unfold applyToPops at hv
  cases hp : Pop scope st with
  | fail e st2 => rw [hp] at hv; cases hv
  | ok x st2 =>
    rw [hp] at hv
    dsimp only at hv
    cases hq : Pop scope st2 with
    | fail e st3 => rw [hq] at hv; cases hv
    | ok y st3 =>
      rw [hq] at hv
      dsimp only at hv
      have h3 : st1.frame scope = st3.frame scope := by
        apply frame_of_deref
        intro sc
        have := hf sc x y st3
        rw [hv] at this
        exact this
      rw [h3, frame_Pop hq, frame_Pop hp]

theorem EvaluateOperator_frame (expr : Statement) (scope : ScopeRef) (st st1 : State)
    (v : EvalValue) (hv : EvaluateOperator expr scope st = .ok v st1) :
    st1.frame scope = st.frame scope := by
  unfold EvaluateOperator at hv
  simp only [] at hv
  rw [← frame_write scope st (.OP expr)]
  split_ifs at hv
  · exact applyToPops_frame _ (fun sc => Sum_deref sc) scope _ _ _ hv
  · exact applyToPops_frame _ (fun sc => Mul_deref sc) scope _ _ _ hv
  · exact applyToPops_frame _ (fun sc => Div_deref sc) scope _ _ _ hv
  · exact applyToPops_frame _ (fun sc => Sub_deref sc) scope _ _ _ hv
  · exact applyToPops_frame _ (fun sc => GreaterThan_deref sc) scope _ _ _ hv
  · exact applyToPops_frame _ (fun sc => SmallerThan_deref sc) scope _ _ _ hv
  · exact applyToPops_frame _ (fun sc => Equal_deref sc) scope _ _ _ hv
  · exact applyToPops_frame _ (fun sc => NotEqual_deref sc) scope _ _ _ hv
  · cases hv
    rfl

/-! A well-formed operand changes neither the variables of the Scope `scope`
points to nor the other Scope. -/

mutual
theorem operand_frame : ∀ (x : Statement) (scope : ScopeRef) (st st1 : State) (v : EvalValue),
    x.isOperand = true → Evaluate x scope st = .ok v st1 → st1.frame scope = st.frame scope
  | .K_IDENTIFIER n, scope, st, st1, v, _, hev => by
    rw [Evaluate] at hev
    unfold EvaluateIdentifier threwError at hev
    split at hev <;> cases hev
    rfl
  | .K_NUMBER _, scope, st, st1, v, _, hev => by
    rw [Evaluate] at hev
    cases hev
    rfl
  | .K_STRING _, scope, st, st1, v, _, hev => by
    rw [Evaluate] at hev
    cases hev
    rfl
  | .K_EXPRESSION Body, scope, st, st1, v, hwf, hev => by
    rw [Statement.isOperand] at hwf
    rw [Evaluate] at hev
    exact expression_frame Body scope st st1 v hwf hev
  | .K_EOF, _, _, _, _, hwf, _ => by simp [Statement.isOperand] at hwf
  | .K_OPEN_TAG _, _, _, _, _, hwf, _ => by simp [Statement.isOperand] at hwf
  | .K_CLOSE_TAG _, _, _, _, _, hwf, _ => by simp [Statement.isOperand] at hwf
  | .K_PARAMETERS, _, _, _, _, hwf, _ => by simp [Statement.isOperand] at hwf
  | .K_PARAMETER_VALUE _, _, _, _, _, hwf, _ => by simp [Statement.isOperand] at hwf
  | .K_IF_STATEMENT _, _, _, _, _, hwf, _ => by simp [Statement.isOperand] at hwf
  | .K_OPERATOR _, _, _, _, _, hwf, _ => by simp [Statement.isOperand] at hwf
theorem expression_frame : ∀ (expr : Expression) (scope : ScopeRef) (st st1 : State)
    (v : EvalValue), expr.WellFormed = true → EvaluateExpression expr scope st = .ok v st1 →
    st1.frame scope = st.frame scope
  | .mk statements, scope, st, st1, v, hwf, hev => by
    rw [Expression.WellFormed, beq_iff_eq] at hwf
    rw [EvaluateExpression] at hev
    cases hr : EvaluateExpression.range statements scope st with
    | fail e stR => rw [hr] at hev; cases hev
    | ok u stR =>
      rw [hr] at hev
      dsimp only at hev
      rw [frame_Pop hev]
      exact postfix_frame statements 0 1 scope st stR hwf hr
theorem postfix_frame : ∀ (statements : List Statement) (d d1 : Nat) (scope : ScopeRef)
    (st st1 : State), Postfix.depth statements d = some d1 →
    EvaluateExpression.range statements scope st = .ok () st1 →
    st1.frame scope = st.frame scope
  | [], d, d1, scope, st, st1, hd, hev => by
    rw [EvaluateExpression.range] at hev
    cases hev
    rfl
  | ex :: rest, d, d1, scope, st, st1, hd, hev => by
    have hoperand := operand_frame ex scope st
    have hrest := postfix_frame rest
    cases ex
    case K_OPERATOR Body =>
      rw [Postfix.depth] at hd
      rw [EvaluateExpression.range] at hev
      split at hd
      · cases hv : EvaluateOperator (.K_OPERATOR Body) scope st with
        | fail e st2 => rw [hv] at hev; cases hev
        | ok v st2 =>
          rw [hv] at hev
          rw [hrest (d - 1) d1 scope _ st1 hd hev, frame_Push,
            EvaluateOperator_frame _ scope st st2 v hv]
      · cases hd
    all_goals
      rw [Postfix.depth] at hd <;> first
      | (intro _ h; cases h)
      | skip
    all_goals
      rw [EvaluateExpression.range] at hev <;> first
      | (intro _ h; cases h)
      | skip
    all_goals
      split at hd
      · rename_i hop
        generalize hg : Evaluate _ scope st = o at hev
        cases o with
        | fail e st2 => cases hev
        | ok v st2 =>
          rw [hrest (d + 1) d1 scope _ st1 hd hev, frame_Push, hoperand st2 v hop hg]
      · cases hd
end

/-- A well-formed operand only writes: once evaluated, both Scopes are what
they were. -/
theorem operand_pure (x : Statement) (scope : ScopeRef) (st st1 : State) (v : EvalValue)
    (hx : x.isOperand = true) (hev : Evaluate x scope st = .ok v st1) :
    st1.Scope = st.Scope ∧ st1.newScope = st.newScope := by
  have hs := operand_balance x scope st st1 v hx hev
  have hf := operand_frame x scope st st1 v hx hev
  cases scope
  · simp only [State.frame, Prod.mk.injEq] at hf
    simp only [State.deref] at hs
    refine ⟨?_, hf.2⟩
    cases h1 : st1.Scope
    cases h0 : st.Scope
    rw [h1, h0] at hs hf
    simp only at hs hf
    rw [hs, hf.1]
  · simp only [State.frame, Prod.mk.injEq] at hf
    simp only [State.deref] at hs
    refine ⟨hf.2, ?_⟩
    cases h1 : st1.newScope
    cases h0 : st.newScope
    rw [h1, h0] at hs hf
    simp only at hs hf
    rw [hs, hf.1]

/-- A well-formed operand is a value. -/
theorem isValue_of_isOperand (x : Statement) (hx : x.isOperand = true) : x.isValue = true := by
  cases x <;> first | exact hx | simp [Statement.isOperand] at hx

/-- A value, bare or wrapped as a ParameterValue, only writes: once evaluated,
both Scopes are what they were. -/
theorem value_pure : ∀ (x : Statement) (scope : ScopeRef) (st st1 : State) (v : EvalValue),
    x.isValue = true → Evaluate x scope st = .ok v st1 →
    st1.Scope = st.Scope ∧ st1.newScope = st.newScope
  | .K_PARAMETER_VALUE Body, scope, st, st1, v, hx, hev => by
    rw [Statement.isValue] at hx
    rw [Evaluate] at hev
    exact value_pure Body scope st st1 v hx hev
  | .K_IDENTIFIER Body, scope, st, st1, v, hx, hev =>
    operand_pure (.K_IDENTIFIER Body) scope st st1 v hx hev
  | .K_NUMBER Body, scope, st, st1, v, hx, hev =>
    operand_pure (.K_NUMBER Body) scope st st1 v hx hev
  | .K_STRING Body, scope, st, st1, v, hx, hev =>
    operand_pure (.K_STRING Body) scope st st1 v hx hev
  | .K_EXPRESSION Body, scope, st, st1, v, hx, hev =>
    operand_pure (.K_EXPRESSION Body) scope st st1 v hx hev
  | .K_EOF, _, _, _, _, hx, _ => by simp [Statement.isValue] at hx
  | .K_OPEN_TAG _, _, _, _, _, hx, _ => by simp [Statement.isValue] at hx
  | .K_CLOSE_TAG _, _, _, _, _, hx, _ => by simp [Statement.isValue] at hx
  | .K_PARAMETERS, _, _, _, _, hx, _ => by simp [Statement.isValue] at hx
  | .K_IF_STATEMENT _, _, _, _, _, hx, _ => by simp [Statement.isValue] at hx
  | .K_OPERATOR _, _, _, _, _, hx, _ => by simp [Statement.isValue] at hx

/-- Parameters whose values only yield a value only write. -/
theorem EvaluateParameters_range_pure (parameters : List Parameter) :
    ∀ (scope : ScopeRef) (acc P : Parameters) (st st1 : State),
      (∀ p ∈ parameters, p.Value.isValue = true) →
      EvaluateParameters.range parameters scope acc st = .ok P st1 →
      st1.Scope = st.Scope ∧ st1.newScope = st.newScope := by
  induction parameters with
  | nil =>
    intro scope acc P st st1 _ h
    rw [EvaluateParameters.range] at h
    cases h
    exact ⟨rfl, rfl⟩
  | cons param rest ih =>
    intro scope acc P st st1 hop h
    obtain ⟨Key, Value⟩ := param
    rw [EvaluateParameters.range] at h
    cases hv : Evaluate Value scope st with
    | fail e st2 => rw [hv] at h; cases h
    | ok v st2 =>
      rw [hv] at h
      have h1 := value_pure Value scope st st2 v (hop _ (List.mem_cons_self _ _)) hv
      have h2 := ih scope _ P st2 st1 (fun p hp => hop p (List.mem_cons_of_mem _ hp)) h
      exact ⟨h2.1.trans h1.1, h2.2.trans h1.2⟩

/-! ### C11: a `Let` that lacks a parameter -/

theorem Parameters_get_set (params : Parameters) (k k1 : String) (v : EvalValue) :
    (params.set k v).get k1 = if k = k1 then some v else params.get k1 := by
  induction params with
  | nil => simp [Parameters.set, Parameters.get]
  | cons p rest ih =>
    obtain ⟨k0, w⟩ := p
    by_cases h0 : k0 = k
    · subst h0
      by_cases h1 : k0 = k1 <;> simp [Parameters.set, Parameters.get, h1]
    · by_cases h1 : k0 = k1
      · subst h1
        have : ¬ k = k0 := fun h => h0 h.symm
        simp [Parameters.set, Parameters.get, h0, this]
      · simp [Parameters.set, Parameters.get, h0, h1, ih]

/-- The keys of the mapping `EvaluateParameters` builds are the keys it started
with and the keys of the parameters. -/
theorem EvaluateParameters_range_get_none (k : String) (parameters : List Parameter) :
    ∀ (scope : ScopeRef) (acc P : Parameters) (st st1 : State),
      EvaluateParameters.range parameters scope acc st = .ok P st1 →
      (P.get k = none ↔ acc.get k = none ∧ ∀ p ∈ parameters, p.Key ≠ k) := by
  induction parameters with
  | nil =>
    intro scope acc P st st1 h
    rw [EvaluateParameters.range] at h
    cases h
    simp
  | cons param rest ih =>
    intro scope acc P st st1 h
    obtain ⟨Key, Value⟩ := param
    rw [EvaluateParameters.range] at h
    cases hv : Evaluate Value scope st with
    | fail e st2 => rw [hv] at h; cases h
    | ok v st2 =>
      rw [hv] at h
      rw [ih scope _ P st2 st1 h, Parameters_get_set]
      by_cases hk : Key = k <;> simp [hk, Parameter.Key]

/-- C11, as amended. Let the parameters of a `Let` CloseTag evaluate without
error, to the state `st1`. If no parameter has the key `value`, the `Let`
aborts and prints `[RuntimeError] Expect 'value' param`; if one has the key
`value` and none the key `id`, it aborts and prints
`[RuntimeError] Expect 'id' param`. In both cases the run stops in the state
`st1` the parameters left: the `Let` itself defines no variable, and every
variable defined before keeps its binding. When every parameter value only
yields a value (an Identifier, a literal or a well-formed Expression, bare or
wrapped as a ParameterValue), `st1` has the very Scopes of the state the `Let`
started from. -/
theorem Let_missing_parameter (params : List Parameter) (scope : ScopeRef) (st st1 : State)
    (P : Parameters) (hP : EvaluateParameters params scope st = .ok P st1) :
    ((∀ p ∈ params, p.Key ≠ "value") →
      EvaluateCloseTag (.mk "Let" params) scope st
        = .fail (.RuntimeError "[RuntimeError] Expect 'value' param") st1) ∧
    ((∃ p ∈ params, p.Key = "value") → (∀ p ∈ params, p.Key ≠ "id") →
      EvaluateCloseTag (.mk "Let" params) scope st
        = .fail (.RuntimeError "[RuntimeError] Expect 'id' param") st1) ∧
    (∀ m w, st.Scope.GetVariable m = some w → st1.Scope.GetVariable m = some w) ∧
    ((∀ p ∈ params, p.Value.isValue = true) →
      st1.Scope = st.Scope ∧ st1.newScope = st.newScope) := by
  have hval := EvaluateParameters_range_get_none "value" params scope [] P st st1 hP
  have hid := EvaluateParameters_range_get_none "id" params scope [] P st st1 hP
  simp only [Parameters.get, true_and] at hval hid
  have hk : Keeps st st1 := by
    have := EvaluateParameters_range_keeps params scope [] st
    unfold EvaluateParameters at hP
    rw [hP] at this
    exact this
  have e1 : fmt.Errorf "[RuntimeError] Expect 'value' param"
      = "[RuntimeError] Expect 'value' param" := by decide
  have e2 : fmt.Errorf "[RuntimeError] Expect 'id' param"
      = "[RuntimeError] Expect 'id' param" := by decide
  refine ⟨?_, ?_, fun m w hm => hk.GetVariable hm,
    fun hop => EvaluateParameters_range_pure params scope [] P st st1 hop hP⟩
  · intro h
    rw [EvaluateCloseTag_Let]
    unfold EvaluateLetDeclaration
    simp only [CloseTag.Params]
    rw [hP]
    simp [EvaluateLetDeclaration.define, hval.2 h, threwError, e1]
  · intro hv h
    have h1 : P.get "value" ≠ none := by
      intro hn
      obtain ⟨p, hp, hk⟩ := hv
      exact hval.1 hn p hp hk
    rw [EvaluateCloseTag_Let]
    unfold EvaluateLetDeclaration
    simp only [CloseTag.Params]
    rw [hP]
    cases hg : P.get "value" with
    | none => exact absurd hg h1
    | some value => simp [EvaluateLetDeclaration.define, hg, hid.2 h, threwError, e2]

/-- Two instances of C11, as amended, from the initial state: `Let` with only
`id = "x"`, and `Let` with only `value = 1`; the run stops in the initial
state. -/
theorem Let_missing_parameter_witness :
    (EvaluateParameters [.mk "id" (.K_STRING "x")] .interpreterScope initialState
      = .ok [("id", Str "x")] initialState ∧
    EvaluateCloseTag (.mk "Let" [.mk "id" (.K_STRING "x")]) .interpreterScope initialState
      = .fail (.RuntimeError "[RuntimeError] Expect 'value' param") initialState) ∧
    (EvaluateParameters [.mk "value" (.K_NUMBER 1)] .interpreterScope initialState
      = .ok [("value", Number 1)] initialState ∧
    EvaluateCloseTag (.mk "Let" [.mk "value" (.K_NUMBER 1)]) .interpreterScope initialState
      = .fail (.RuntimeError "[RuntimeError] Expect 'id' param") initialState) :=
  ⟨⟨rfl, (Let_missing_parameter [.mk "id" (.K_STRING "x")] .interpreterScope initialState
      initialState [("id", Str "x")] rfl).1 (by simp [Parameter.Key])⟩,
   ⟨rfl, (Let_missing_parameter [.mk "value" (.K_NUMBER 1)] .interpreterScope initialState
      initialState [("value", Number 1)] rfl).2.1 ⟨_, List.mem_singleton.2 rfl, rfl⟩
        (by simp [Parameter.Key])⟩⟩

/-- C11 as stated fails. The `Let` whose only parameter is
`id = <Let id="y" value=1/>` has no `value` parameter; its parameter evaluates
without error, and the `Let` aborts with `Expect 'value' param`. But `y`, which
was not defined before, is defined in the state the run stops in: the Scope
has changed. -/
theorem Let_missing_value_after_nested_Let :
    initialState.Scope.GetVariable "y" = none ∧
    (EvaluateParameters
        [.mk "id" (.K_CLOSE_TAG (.mk "Let" [.mk "id" (.K_STRING "y"), .mk "value" (.K_NUMBER 1)]))]
        .interpreterScope initialState).result = .ok [("id", Undefined)] ∧
    (EvaluateCloseTag
        (.mk "Let"
          [.mk "id" (.K_CLOSE_TAG (.mk "Let" [.mk "id" (.K_STRING "y"), .mk "value" (.K_NUMBER 1)]))])
        .interpreterScope initialState).result
      = .error (.RuntimeError "[RuntimeError] Expect 'value' param") ∧
    (EvaluateCloseTag
        (.mk "Let"
          [.mk "id" (.K_CLOSE_TAG (.mk "Let" [.mk "id" (.K_STRING "y"), .mk "value" (.K_NUMBER 1)]))])
        .interpreterScope initialState).state.Scope.GetVariable "y"
      = some ⟨"y", .int 1, .VAR_TYPE_NUMBER⟩ :=
  ⟨rfl, rfl, rfl, rfl⟩

/-! ### C12 and C13: the `If` statement -/

/-- The loop of `EvaluateIfStatement` returns exactly when its nodes are
evaluated in order without error. -/
theorem EvaluateIfStatement_range_ok_iff (scope : ScopeRef) (nodes : List Statement) :
    ∀ (st st2 : State),
      EvaluateIfStatement.range nodes scope st = .ok () st2 ↔
        EvaluatedInOrder scope nodes st st2 := by
  induction nodes with
  | nil =>
    intro st st2
    rw [EvaluateIfStatement.range]
    constructor
    · intro h
      cases h
      exact EvaluatedInOrder.nil _
    · intro h
      cases h
      rfl
  | cons node rest ih =>
    intro st st2
    rw [EvaluateIfStatement.range]
    constructor
    · intro h
      cases hv : Evaluate node scope st with
      | fail e st1 => rw [hv] at h; cases h
      | ok v st1 =>
        rw [hv] at h
        exact EvaluatedInOrder.cons hv ((ih st1 st2).1 h)
    · intro h
      cases h with
      | cons hv hrest =>
        rw [hv]
        exact (ih _ st2).2 hrest

/-- An `If` whose first parameter is `condition`, once the condition has been
evaluated to `result`. -/
theorem EvaluateIfStatement_condition (name : String) (c : Statement) (ps : List Parameter)
    (nodes : List Statement) (scope : ScopeRef) (st st1 : State) (result : EvalValue)
    (hc : Evaluate c scope st = .ok result st1) :
    EvaluateIfStatement (.mk name (.mk "condition" c :: ps) nodes) scope st
      = if result.Value == .bool true then
          match EvaluateIfStatement.range nodes scope st1 with
          | .fail e st2 => .fail e st2
          | .ok _ st2 => .ok Undefined st2
        else .ok Undefined st1 := by
  rw [EvaluateIfStatement, EvaluateCondition]
  simp [hc]

/-- C12, as amended. Let the first parameter of an `If` be `condition`, and let
it evaluate to the Boolean `b`, in the state `st1`. If `b` is true, the `If`
returns Undefined in the state `st2` exactly when its children are evaluated in
order with the scope of the `If`, each once, from `st1` to `st2`. If `b` is
false, the `If` returns Undefined in `st1` itself: no child is evaluated and
nothing changes after the condition. In `st1` every variable defined before the
`If` keeps its binding; when the condition only yields a value (an Identifier,
a literal or a well-formed Expression, bare or wrapped as a ParameterValue),
`st1` has the very Scopes of the state the `If` started from, so the variable
store is unchanged. -/
theorem If_true_false (name : String) (c : Statement) (ps : List Parameter)
    (nodes : List Statement) (scope : ScopeRef) (st st1 : State) (b : Bool)
    (hc : Evaluate c scope st = .ok (Boolean b) st1) :
    (b = true → ∀ st2,
      EvaluateIfStatement (.mk name (.mk "condition" c :: ps) nodes) scope st = .ok Undefined st2
        ↔ EvaluatedInOrder scope nodes st1 st2) ∧
    (b = false →
      EvaluateIfStatement (.mk name (.mk "condition" c :: ps) nodes) scope st
        = .ok Undefined st1) ∧
    (∀ m w, st.Scope.GetVariable m = some w → st1.Scope.GetVariable m = some w) ∧
    (c.isValue = true → st1.Scope = st.Scope ∧ st1.newScope = st.newScope) := by
  have hk : Keeps st st1 := by
    have := Evaluate_keeps c scope st
    rw [hc] at this
    exact this
  rw [EvaluateIfStatement_condition name c ps nodes scope st st1 _ hc]
  refine ⟨?_, ?_, fun m w hm => hk.GetVariable hm,
    fun hop => value_pure c scope st st1 _ hop hc⟩
  · intro hb st2
    subst hb
    rw [← EvaluateIfStatement_range_ok_iff]
    simp only [Boolean, beq_self_eq_true, if_true]
    cases EvaluateIfStatement.range nodes scope st1 with
    | fail e st3 => simp
    | ok u st3 => simp
  · intro hb
    subst hb
    rfl

/-- Two instances of C12, as amended, from the initial state. With the condition
`5 3 greater`, which evaluates to Boolean true, the child `Let x = 1` is
evaluated and the `If` returns Undefined with `x` defined. With the condition
`5 3 smaller`, which evaluates to Boolean false, the `If` returns Undefined in
the state the condition left. -/
theorem If_true_false_witness :
    (Evaluate (.K_EXPRESSION (.mk [.K_NUMBER 5, .K_NUMBER 3, .K_OPERATOR "greater"]))
        .interpreterScope initialState
      = .ok (Boolean true) (initialState.write (.OP (.K_OPERATOR "greater"))) ∧
    EvaluateIfStatement
        (.mk "If" [.mk "condition"
            (.K_EXPRESSION (.mk [.K_NUMBER 5, .K_NUMBER 3, .K_OPERATOR "greater"]))]
          [.K_CLOSE_TAG (.mk "Let" [.mk "id" (.K_STRING "x"), .mk "value" (.K_NUMBER 1)])])
        .interpreterScope initialState
      = .ok Undefined
          (Evaluate
            (.K_CLOSE_TAG (.mk "Let" [.mk "id" (.K_STRING "x"), .mk "value" (.K_NUMBER 1)]))
            .interpreterScope (initialState.write (.OP (.K_OPERATOR "greater")))).state) ∧
    (Evaluate (.K_EXPRESSION (.mk [.K_NUMBER 5, .K_NUMBER 3, .K_OPERATOR "smaller"]))
        .interpreterScope initialState
      = .ok (Boolean false) (initialState.write (.OP (.K_OPERATOR "smaller"))) ∧
    EvaluateIfStatement
        (.mk "If" [.mk "condition"
            (.K_EXPRESSION (.mk [.K_NUMBER 5, .K_NUMBER 3, .K_OPERATOR "smaller"]))]
          [.K_CLOSE_TAG (.mk "Let" [.mk "id" (.K_STRING "x"), .mk "value" (.K_NUMBER 1)])])
        .interpreterScope initialState
      = .ok Undefined (initialState.write (.OP (.K_OPERATOR "smaller")))) :=
  ⟨⟨rfl,
    ((If_true_false "If"
        (.K_EXPRESSION (.mk [.K_NUMBER 5, .K_NUMBER 3, .K_OPERATOR "greater"])) []
        [.K_CLOSE_TAG (.mk "Let" [.mk "id" (.K_STRING "x"), .mk "value" (.K_NUMBER 1)])]
        .interpreterScope initialState (initialState.write (.OP (.K_OPERATOR "greater")))
        true rfl).1 rfl
      (Evaluate
        (.K_CLOSE_TAG (.mk "Let" [.mk "id" (.K_STRING "x"), .mk "value" (.K_NUMBER 1)]))
        .interpreterScope (initialState.write (.OP (.K_OPERATOR "greater")))).state).2
      (EvaluatedInOrder.cons rfl (EvaluatedInOrder.nil _))⟩,
   ⟨rfl,
    (If_true_false "If"
        (.K_EXPRESSION (.mk [.K_NUMBER 5, .K_NUMBER 3, .K_OPERATOR "smaller"])) []
        [.K_CLOSE_TAG (.mk "Let" [.mk "id" (.K_STRING "x"), .mk "value" (.K_NUMBER 1)])]
        .interpreterScope initialState (initialState.write (.OP (.K_OPERATOR "smaller")))
        false rfl).2.1 rfl⟩⟩

/-- C12 as stated fails. The condition `<Let id="y" value=1/> 5 3 smaller`
evaluates without error to Boolean false, and the `If` returns Undefined
without evaluating its child `Let x = 1`; but `y`, which was not defined before
the `If`, is defined after it: the variable store has changed. -/
theorem If_false_condition_defines_variable :
    initialState.Scope.GetVariable "y" = none ∧
    (Evaluate
        (.K_EXPRESSION (.mk
          [.K_CLOSE_TAG (.mk "Let" [.mk "id" (.K_STRING "y"), .mk "value" (.K_NUMBER 1)]),
            .K_NUMBER 5, .K_NUMBER 3, .K_OPERATOR "smaller"]))
        .interpreterScope initialState).result = .ok (Boolean false) ∧
    (EvaluateIfStatement
        (.mk "If" [.mk "condition"
            (.K_EXPRESSION (.mk
              [.K_CLOSE_TAG (.mk "Let" [.mk "id" (.K_STRING "y"), .mk "value" (.K_NUMBER 1)]),
                .K_NUMBER 5, .K_NUMBER 3, .K_OPERATOR "smaller"]))]
          [.K_CLOSE_TAG (.mk "Let" [.mk "id" (.K_STRING "x"), .mk "value" (.K_NUMBER 1)])])
        .interpreterScope initialState).result = .ok Undefined ∧
    (EvaluateIfStatement
        (.mk "If" [.mk "condition"
            (.K_EXPRESSION (.mk
              [.K_CLOSE_TAG (.mk "Let" [.mk "id" (.K_STRING "y"), .mk "value" (.K_NUMBER 1)]),
                .K_NUMBER 5, .K_NUMBER 3, .K_OPERATOR "smaller"]))]
          [.K_CLOSE_TAG (.mk "Let" [.mk "id" (.K_STRING "x"), .mk "value" (.K_NUMBER 1)])])
        .interpreterScope initialState).state.Scope.GetVariable "y"
      = some ⟨"y", .int 1, .VAR_TYPE_NUMBER⟩ ∧
    (EvaluateIfStatement
        (.mk "If" [.mk "condition"
            (.K_EXPRESSION (.mk
              [.K_CLOSE_TAG (.mk "Let" [.mk "id" (.K_STRING "y"), .mk "value" (.K_NUMBER 1)]),
                .K_NUMBER 5, .K_NUMBER 3, .K_OPERATOR "smaller"]))]
          [.K_CLOSE_TAG (.mk "Let" [.mk "id" (.K_STRING "x"), .mk "value" (.K_NUMBER 1)])])
        .interpreterScope initialState).state.Scope.GetVariable "x" = none :=
  ⟨rfl, rfl, rfl, rfl, rfl⟩

/-- C13, as amended. Let the `condition` of an `If` evaluate without error to a
value whose underlying datum is not a boolean. Then the `If` does not fail: it
skips its children and returns Undefined, in the state the condition left, as
it does for Boolean false. -/
theorem If_condition_not_boolean (name : String) (c : Statement) (ps : List Parameter)
    (nodes : List Statement) (scope : ScopeRef) (st st1 : State) (v : EvalValue)
    (hc : Evaluate c scope st = .ok v st1) (hv : ∀ b, v.Value ≠ .bool b) :
    EvaluateIfStatement (.mk name (.mk "condition" c :: ps) nodes) scope st
      = .ok Undefined st1 := by
  rw [EvaluateIfStatement_condition name c ps nodes scope st st1 v hc]
  have : (v.Value == Datum.bool true) = false := by
    rw [beq_eq_false_iff_ne]
    exact hv true
  simp [this]

/-- An instance of C13, as amended: the condition is the String `"yes"`. -/
theorem If_condition_not_boolean_witness :
    Evaluate (.K_STRING "yes") .interpreterScope initialState = .ok (Str "yes") initialState ∧
    (∀ b, (Str "yes").Value ≠ .bool b) ∧
    EvaluateIfStatement
        (.mk "If" [.mk "condition" (.K_STRING "yes")]
          [.K_CLOSE_TAG (.mk "Let" [.mk "id" (.K_STRING "x"), .mk "value" (.K_NUMBER 1)])])
        .interpreterScope initialState
      = .ok Undefined initialState :=
  ⟨rfl, fun _ h => Datum.noConfusion h,
    If_condition_not_boolean "If" (.K_STRING "yes") []
      [.K_CLOSE_TAG (.mk "Let" [.mk "id" (.K_STRING "x"), .mk "value" (.K_NUMBER 1)])]
      .interpreterScope initialState initialState (Str "yes") rfl
      (fun _ h => Datum.noConfusion h)⟩

/-- C13 as stated fails. An `If` whose condition is the Number `1`, the String
`"yes"` or Undefined (the value of the end-of-program statement) returns
Undefined without any error; its child `Let x = 1` is skipped, so the state is
the initial one and `x` is not defined. -/
theorem If_number_condition_returns_Undefined :
    Evaluate
        (.K_IF_STATEMENT (.mk "If" [.mk "condition" (.K_NUMBER 1)]
          [.K_CLOSE_TAG (.mk "Let" [.mk "id" (.K_STRING "x"), .mk "value" (.K_NUMBER 1)])]))
        .interpreterScope initialState
      = .ok Undefined initialState ∧
    Evaluate
        (.K_IF_STATEMENT (.mk "If" [.mk "condition" (.K_STRING "yes")]
          [.K_CLOSE_TAG (.mk "Let" [.mk "id" (.K_STRING "x"), .mk "value" (.K_NUMBER 1)])]))
        .interpreterScope initialState
      = .ok Undefined initialState ∧
    Evaluate
        (.K_IF_STATEMENT (.mk "If" [.mk "condition" .K_EOF]
          [.K_CLOSE_TAG (.mk "Let" [.mk "id" (.K_STRING "x"), .mk "value" (.K_NUMBER 1)])]))
        .interpreterScope initialState
      = .ok Undefined initialState ∧
    initialState.Scope.GetVariable "x" = none :=
  ⟨rfl, rfl, rfl, rfl⟩

/-! ### C14: identifiers -/

/-- C14. The name `%d` is not defined in the initial state, and the Identifier
`%d` aborts there with the line `[RuntimeError] '%!d(MISSING)' is undefined`,
which does not name `%d`: `threwError` hands the message to `fmt.Errorf` as a
format string. For every name `n` not defined in `interpreter.Scope` the
Identifier `n` aborts with the line `fmt.Errorf` renders from
`[RuntimeError] 'n' is undefined`, and that line is
`[RuntimeError] 'n' is undefined` itself when `n` holds no `%`. For every name
defined there the Identifier returns the Type and Value stored for it. Neither
changes the state, and the `scope` argument plays no part. -/
theorem Identifier_undefined_percent_name :
    initialState.Scope.GetVariable "%d" = none ∧
    Evaluate (.K_IDENTIFIER "%d") .interpreterScope initialState
      = .fail (.RuntimeError "[RuntimeError] '%!d(MISSING)' is undefined") initialState ∧
    (∀ (n : String) (scope : ScopeRef) (st : State), st.Scope.GetVariable n = none →
      Evaluate (.K_IDENTIFIER n) scope st
        = .fail
            (.RuntimeError (fmt.Errorf ("[RuntimeError] " ++ ("'" ++ n ++ "' is undefined"))))
            st) ∧
    (∀ n : String, '%' ∉ n.data →
      fmt.Errorf ("[RuntimeError] " ++ ("'" ++ n ++ "' is undefined"))
        = "[RuntimeError] '" ++ n ++ "' is undefined") ∧
    (∀ (n : String) (scope : ScopeRef) (st : State) (var : Variable),
      st.Scope.GetVariable n = some var →
      Evaluate (.K_IDENTIFIER n) scope st = .ok ⟨var.ValueType, var.Value⟩ st) := by
  refine ⟨rfl, rfl, ?_, fmt.Errorf_is_undefined, ?_⟩
  · intro n scope st hn
    rw [Evaluate]
    simp [EvaluateIdentifier, hn, threwError]
  · intro n scope st var hn
    rw [Evaluate]
    simp [EvaluateIdentifier, hn]

/-! ### C15: an expression that leaves several values -/

/-- C15, as amended. When the statements of an Expression have been evaluated
without error and the operand stack holds `v` on top of `rest`, whatever
`rest` is, `EvaluateExpression` returns `v`, the value pushed last, and leaves
`rest` on the stack: no error is raised for values left over. -/
theorem Expression_returns_top (statements : List Statement) (scope : ScopeRef)
    (st st1 : State) (v : EvalValue) (rest : List EvalValue)
    (hr : EvaluateExpression.range statements scope st = .ok () st1)
    (hs : (st1.deref scope).Stack = v :: rest) :
    EvaluateExpression (.mk statements) scope st
      = .ok v (st1.assign scope { st1.deref scope with Stack := rest }) := by
  rw [EvaluateExpression, hr]
  simp [Pop, Scope.Pop, hs]

/-- An instance of C15, as amended: the two operands `5 3` with no operator. -/
theorem Expression_returns_top_witness :
    EvaluateExpression.range [.K_NUMBER 5, .K_NUMBER 3] .interpreterScope initialState
      = .ok () (Push .interpreterScope (Number 3) (Push .interpreterScope (Number 5) initialState)) ∧
    ((Push .interpreterScope (Number 3) (Push .interpreterScope (Number 5) initialState)).deref
      .interpreterScope).Stack = Number 3 :: [Number 5] ∧
    EvaluateExpression (.mk [.K_NUMBER 5, .K_NUMBER 3]) .interpreterScope initialState
      = .ok (Number 3)
          ((Push .interpreterScope (Number 3)
              (Push .interpreterScope (Number 5) initialState)).assign .interpreterScope
            { (Push .interpreterScope (Number 3)
                (Push .interpreterScope (Number 5) initialState)).deref .interpreterScope with
              Stack := [Number 5] }) :=
  ⟨rfl, rfl, Expression_returns_top [.K_NUMBER 5, .K_NUMBER 3] .interpreterScope initialState
    (Push .interpreterScope (Number 3) (Push .interpreterScope (Number 5) initialState))
    (Number 3) [Number 5] rfl rfl⟩

/-- C15 as stated fails. The Expression `5 3`, two operands with no operator,
leaves two values on the operand stack; `EvaluateExpression` raises no error,
returns the Number `3` and leaves the Number `5` on the stack. -/
theorem Expression_two_operands_returns :
    EvaluateExpression (.mk [.K_NUMBER 5, .K_NUMBER 3]) .interpreterScope initialState
      = .ok (Number 3) (Push .interpreterScope (Number 5) initialState) ∧
    (Push .interpreterScope (Number 5) initialState).Scope.Stack = [Number 5] :=
  ⟨rfl, rfl⟩

/-! ### C16: the line written by `Print` -/

theorem perm_pair_iff {α : Type} (x y : α) (l : List α) :
    l.Perm [x, y] ↔ l = [x, y] ∨ l = [y, x] := by
  constructor
  · intro h
    have hlen := h.length_eq
    match l, hlen with
    | [p, q], _ =>
      have hp : p ∈ [x, y] := h.subset (List.mem_cons_self _ _)
      simp only [List.mem_cons, List.mem_singleton, List.not_mem_nil, or_false] at hp
      rcases hp with hp | hp
      · subst hp
        have hq := List.perm_singleton.1 (List.Perm.cons_inv h)
        left
        rw [List.cons.injEq] at hq
        rw [hq.1]
      · subst hp
        have h2 : [p, q].Perm [p, x] := h.trans (List.Perm.swap _ _ _)
        have hq := List.perm_singleton.1 (List.Perm.cons_inv h2)
        right
        rw [List.cons.injEq] at hq
        rw [hq.1]
  · rintro (h | h)
    · rw [h]
    · rw [h]
      exact List.Perm.swap _ _ _

/-- C16, as amended. For the parameters `first = a`, `second = b` the call of
`Print` hands `NativePrint` the mapping of `first` to `a` and of `second` to
`b`, and the line written holds `a` and `b` in the order in which the `range`
over that mapping takes them: `a b` and `b a` are both possible, and nothing
else is. -/
theorem Print_two_parameters (a b : String) (scope : ScopeRef) :
    EvaluateCloseTag (.mk "Print" [.mk "first" (.K_STRING a), .mk "second" (.K_STRING b)])
        scope initialState
      = .ok Undefined
          (initialState.write (.Println [("first", Str a), ("second", Str b)])) ∧
    (∀ values, NativePrint.mayPrint [("first", Str a), ("second", Str b)] values ↔
      values = [.string a, .string b] ∨ values = [.string b, .string a]) := by
  constructor
  · cases scope <;> rfl
  · intro values
    unfold NativePrint.mayPrint
    constructor
    · rintro ⟨entries, hperm, hvalues⟩
      rcases (perm_pair_iff _ _ _).1 hperm with h | h <;> subst h
      · left
        exact (Option.some.inj hvalues).symm
      · right
        exact (Option.some.inj hvalues).symm
    · rintro (h | h) <;> subst h
      · exact ⟨_, List.Perm.refl _, rfl⟩
      · exact ⟨[("second", Str b), ("first", Str a)], List.Perm.swap _ _ _, rfl⟩

/-- C16 as stated fails. For the parameters `first = "a"`, `second = "b"` the
call of `Print` from the initial state writes one line for the mapping of
`first` to `"a"` and `second` to `"b"`; the `range` over the mapping may take
`second` first, and the text written is then `b a`, not `a b`. -/
theorem Print_may_write_b_a :
    (EvaluateCloseTag
        (.mk "Print" [.mk "first" (.K_STRING "a"), .mk "second" (.K_STRING "b")])
        .interpreterScope initialState).state.Output.length = 1 ∧
    EvaluateCloseTag
        (.mk "Print" [.mk "first" (.K_STRING "a"), .mk "second" (.K_STRING "b")])
        .interpreterScope initialState
      = .ok Undefined
          (initialState.write (.Println [("first", Str "a"), ("second", Str "b")])) ∧
    NativePrint.mayPrint [("first", Str "a"), ("second", Str "b")]
      [.string "b", .string "a"] ∧
    Println.text [.string "b", .string "a"] = some "b a\n" ∧
    Println.text [.string "a", .string "b"] = some "a b\n" :=
  ⟨rfl, rfl, ⟨[("second", Str "b"), ("first", Str "a")], List.Perm.swap _ _ _, rfl⟩,
    by decide, by decide⟩

/-! ### C17: an `If` among the children of an OpenTag -/

/-- The loop of `EvaluateOpenTag` stops at the first `If` among the children:
what follows it plays no part. -/
theorem EvaluateOpenTag_range_stops_at_If (Body : OpenTag) (post : List Statement)
    (pre : List Statement) :
    ∀ (st : State),
      EvaluateOpenTag.range (pre ++ .K_IF_STATEMENT Body :: post) st
        = EvaluateOpenTag.range (pre ++ [.K_IF_STATEMENT Body]) st := by
  induction pre with
  | nil =>
    intro st
    simp only [List.nil_append]
    rw [EvaluateOpenTag.range, EvaluateOpenTag.range]
  | cons child rest ih =>
    intro st
    simp only [List.cons_append]
    cases child
    case K_IF_STATEMENT B =>
      rw [EvaluateOpenTag.range, EvaluateOpenTag.range]
    case K_CLOSE_TAG B =>
      rw [EvaluateOpenTag.range, EvaluateOpenTag.range]
      cases EvaluateCloseTag B .newScope st with
      | fail e st1 => rfl
      | ok v st1 => exact ih st1
    case K_OPEN_TAG B =>
      rw [EvaluateOpenTag.range, EvaluateOpenTag.range]
      cases Evaluate (.K_OPEN_TAG B) .newScope st with
      | fail e st1 => rfl
      | ok v st1 => exact ih st1
    all_goals
      rw [EvaluateOpenTag.range, EvaluateOpenTag.range] <;>
      first
      | exact ih st
      | (intro _ h; cases h)

/-- The loop of `EvaluateOpenTag` over children without an `If`: it evaluates
the OpenTags and CloseTags among them in order and skips the others. -/
theorem EvaluateOpenTag_range_tags (tail : List Statement) (pre : List Statement) :
    ∀ (st st1 : State), (∀ B, Statement.K_IF_STATEMENT B ∉ pre) →
      EvaluatedInOrder .newScope (pre.filter Statement.isTag) st st1 →
      EvaluateOpenTag.range (pre ++ tail) st = EvaluateOpenTag.range tail st1 := by
  induction pre with
  | nil =>
    intro st st1 _ h
    cases h
    rfl
  | cons child rest ih =>
    intro st st1 hif h
    have hrest : ∀ B, Statement.K_IF_STATEMENT B ∉ rest :=
      fun B hB => hif B (List.mem_cons_of_mem _ hB)
    simp only [List.cons_append]
    cases child
    case K_IF_STATEMENT B => exact absurd (List.mem_cons_self _ _) (hif B)
    case K_CLOSE_TAG B =>
      simp only [List.filter, Statement.isTag] at h
      cases h with
      | cons hv hr =>
        rw [EvaluateOpenTag.range]
        rw [Evaluate] at hv
        rw [hv]
        exact ih _ st1 hrest hr
    case K_OPEN_TAG B =>
      simp only [List.filter, Statement.isTag] at h
      cases h with
      | cons hv hr =>
        rw [EvaluateOpenTag.range, hv]
        exact ih _ st1 hrest hr
    all_goals
      simp only [List.filter, Statement.isTag] at h
      rw [EvaluateOpenTag.range] <;>
      first
      | exact ih st st1 hrest h
      | (intro _ h1; cases h1)

/-- C17. Let the children of an OpenTag be `pre`, then an `If`, then `post`,
with no `If` in `pre`, and let the OpenTags and CloseTags of `pre` evaluate in
order without error, in the fresh Scope of the block, up to the state `st1`.
Then `EvaluateOpenTag` evaluates the `If` from `st1` and returns its outcome:
no child in `post` is evaluated, and the outcome, result and final state, is
the one for the children `pre` followed by the `If` alone. -/
theorem OpenTag_returns_at_If (name : String) (params : List Parameter)
    (pre post : List Statement) (Body : OpenTag) (scope : ScopeRef) (st st1 : State)
    (hpre : ∀ B, Statement.K_IF_STATEMENT B ∉ pre)
    (htags : EvaluatedInOrder .newScope (pre.filter Statement.isTag)
      { st with newScope := ⟨[], []⟩ } st1) :
    EvaluateOpenTag (.mk name params (pre ++ .K_IF_STATEMENT Body :: post)) scope st
      = (match EvaluateIfStatement Body .newScope st1 with
        | .fail e st2 => .fail e st2
        | .ok v st2 => .ok v { st2 with newScope := st.newScope }) ∧
    EvaluateOpenTag (.mk name params (pre ++ .K_IF_STATEMENT Body :: post)) scope st
      = EvaluateOpenTag (.mk name params (pre ++ [.K_IF_STATEMENT Body])) scope st := by
  constructor
  · rw [EvaluateOpenTag, EvaluateOpenTag_range_tags _ pre _ st1 hpre htags,
      EvaluateOpenTag.range]
  · rw [EvaluateOpenTag, EvaluateOpenTag, EvaluateOpenTag_range_stops_at_If]

/-- An instance of C17 from the initial state: the children are `Let a = 1`,
the Number `7`, an `If` on `5 3 greater` with the child `Let b = 2`, and
`Let c = 3`. The block returns from the `If`; `a` and `b` are defined, `c` is
not. -/
theorem OpenTag_returns_at_If_witness :
    (∀ B, Statement.K_IF_STATEMENT B ∉ [LetNumber "a" 1, .K_NUMBER 7]) ∧
    EvaluatedInOrder .newScope ([LetNumber "a" 1, .K_NUMBER 7].filter Statement.isTag)
      { initialState with newScope := ⟨[], []⟩ }
      (Evaluate (LetNumber "a" 1) .newScope initialState).state ∧
    (EvaluateOpenTag
        (.mk "Block" []
          ([LetNumber "a" 1, .K_NUMBER 7] ++
            .K_IF_STATEMENT
              (.mk "If" [.mk "condition" (NumberExpression 5 3 "greater")] [LetNumber "b" 2]) ::
            [LetNumber "c" 3]))
        .interpreterScope initialState
      = (match EvaluateIfStatement
            (.mk "If" [.mk "condition" (NumberExpression 5 3 "greater")] [LetNumber "b" 2])
            .newScope (Evaluate (LetNumber "a" 1) .newScope initialState).state with
        | .fail e st2 => .fail e st2
        | .ok v st2 => .ok v { st2 with newScope := initialState.newScope }) ∧
    EvaluateOpenTag
        (.mk "Block" []
          ([LetNumber "a" 1, .K_NUMBER 7] ++
            .K_IF_STATEMENT
              (.mk "If" [.mk "condition" (NumberExpression 5 3 "greater")] [LetNumber "b" 2]) ::
            [LetNumber "c" 3]))
        .interpreterScope initialState
      = EvaluateOpenTag
        (.mk "Block" []
          ([LetNumber "a" 1, .K_NUMBER 7] ++
            [.K_IF_STATEMENT
              (.mk "If" [.mk "condition" (NumberExpression 5 3 "greater")]
                [LetNumber "b" 2])]))
        .interpreterScope initialState) ∧
    (EvaluateOpenTag
        (.mk "Block" []
          ([LetNumber "a" 1, .K_NUMBER 7] ++
            .K_IF_STATEMENT
              (.mk "If" [.mk "condition" (NumberExpression 5 3 "greater")] [LetNumber "b" 2]) ::
            [LetNumber "c" 3]))
        .interpreterScope initialState).state.Scope.Variables.map (fun v => v.Name)
      = ["Print", "If", "a", "b"] :=
  ⟨fun B h => by simp [LetNumber] at h,
   EvaluatedInOrder.cons rfl (EvaluatedInOrder.nil _),
   OpenTag_returns_at_If "Block" [] [LetNumber "a" 1, .K_NUMBER 7] [LetNumber "c" 3]
     (.mk "If" [.mk "condition" (NumberExpression 5 3 "greater")] [LetNumber "b" 2])
     .interpreterScope initialState (Evaluate (LetNumber "a" 1) .newScope initialState).state
     (fun B h => by simp [LetNumber] at h)
     (EvaluatedInOrder.cons rfl (EvaluatedInOrder.nil _)),
   rfl⟩

/-! ### C18: Type and Value of the values produced -/

/-- C18 (the code departs from the claim). `Sum` tags the concatenation of two
Strings with Type Number; `Equal` and `NotEqual` tag the boolean they compute
for two Strings with Type Number; `NativeIfStatement` returns Type Boolean with
the string `"true"` or `"false"` as Value. The expressions `"foo" "bar" +` and
`"a" "a" ==` and the call `<If condition=(5 3 greater)/>` produce such values
through `Evaluate`. -/
theorem produced_value_mismatches_Type :
    (∀ (s t : String) (st : State),
      (Sum (Str t) (Str s) st).result = .ok ⟨.VAR_TYPE_NUMBER, .string (s ++ t)⟩ ∧
      EvalValue.ValueMatchesType ⟨.VAR_TYPE_NUMBER, .string (s ++ t)⟩ = false) ∧
    (∀ (s t : String) (st : State),
      (Equal (Str t) (Str s) st).result = .ok ⟨.VAR_TYPE_NUMBER, .bool (s == t)⟩ ∧
      (NotEqual (Str t) (Str s) st).result = .ok ⟨.VAR_TYPE_NUMBER, .bool (s != t)⟩ ∧
      EvalValue.ValueMatchesType ⟨.VAR_TYPE_NUMBER, .bool (s == t)⟩ = false ∧
      EvalValue.ValueMatchesType ⟨.VAR_TYPE_NUMBER, .bool (s != t)⟩ = false) ∧
    (∀ (b : Bool) (st : State),
      (NativeIfStatement [("condition", Boolean b)] st).result
        = .ok ⟨.VAR_TYPE_BOOLEAN, .string (if b then "true" else "false")⟩ ∧
      EvalValue.ValueMatchesType
        ⟨.VAR_TYPE_BOOLEAN, .string (if b then "true" else "false")⟩ = false) ∧
    (Evaluate (.K_EXPRESSION (.mk [.K_STRING "foo", .K_STRING "bar", .K_OPERATOR "+"]))
      .interpreterScope initialState).result = .ok ⟨.VAR_TYPE_NUMBER, .string "foobar"⟩ ∧
    (Evaluate (.K_EXPRESSION (.mk [.K_STRING "a", .K_STRING "a", .K_OPERATOR "=="]))
      .interpreterScope initialState).result = .ok ⟨.VAR_TYPE_NUMBER, .bool true⟩ ∧
    (Evaluate
      (.K_CLOSE_TAG (.mk "If" [.mk "condition" (NumberExpression 5 3 "greater")]))
      .interpreterScope initialState).result = .ok ⟨.VAR_TYPE_BOOLEAN, .string "true"⟩ := by
  refine ⟨fun s t st => ⟨rfl, rfl⟩, fun s t st => ⟨rfl, rfl, rfl, rfl⟩, ?_, rfl, rfl, rfl⟩
  intro b st
  cases b <;> exact ⟨rfl, rfl⟩

/-! ### C19: variables and OpenTag blocks -/

/-- C19, as amended. Let `n` be defined in `interpreter.Scope` and `m` not. An
OpenTag block whose only child is `<Let id="m" value=n/>`, the value being the
Identifier `n`, returns Undefined: inside the block the Identifier resolves to
the variable of `interpreter.Scope`, and the `Let` adds `m`, with the Value and
Type of `n`, to `interpreter.Scope` itself, where it stays after the block. -/
theorem Block_uses_global_Scope (name : String) (params : List Parameter) (n m : String)
    (scope : ScopeRef) (st : State) (var : Variable)
    (hn : st.Scope.GetVariable n = some var) (hm : st.Scope.GetVariable m = none) :
    Evaluate (.K_IDENTIFIER n) .newScope { st with newScope := ⟨[], []⟩ }
      = .ok ⟨var.ValueType, var.Value⟩ { st with newScope := ⟨[], []⟩ } ∧
    EvaluateOpenTag
        (.mk name params
          [.K_CLOSE_TAG (.mk "Let" [.mk "id" (.K_STRING m), .mk "value" (.K_IDENTIFIER n)])])
        scope st
      = .ok Undefined { st with Scope := { st.Scope with
          Variables := st.Scope.Variables ++ [⟨m, var.Value, var.ValueType⟩] } } ∧
    Scope.GetVariable { st.Scope with
        Variables := st.Scope.Variables ++ [⟨m, var.Value, var.ValueType⟩] } m
      = some ⟨m, var.Value, var.ValueType⟩ := by
  have hid : Evaluate (.K_IDENTIFIER n) .newScope { st with newScope := ⟨[], []⟩ }
      = .ok ⟨var.ValueType, var.Value⟩ { st with newScope := ⟨[], []⟩ } := by
    rw [Evaluate]
    simp [EvaluateIdentifier, hn]
  refine ⟨hid, ?_, ?_⟩
  · rw [EvaluateOpenTag, EvaluateOpenTag.range, EvaluateCloseTag_Let]
    unfold EvaluateLetDeclaration
    simp only [CloseTag.Params]
    rw [EvaluateParameters_id_value, hid]
    simp [EvaluateLetDeclaration.define, Parameters.get, Str, Scope.DefineVariable, hm,
      EvaluateOpenTag.range]
  · unfold Scope.GetVariable at hm ⊢
    simp [List.find?_append, hm]

/-- An instance of C19, as amended: after the top-level `Let x = 1`, a block
with the child `<Let id="y" value=x/>`. -/
theorem Block_uses_global_Scope_witness :
    (Evaluate (LetNumber "x" 1) .interpreterScope initialState).state.Scope.GetVariable "x"
      = some ⟨"x", .int 1, .VAR_TYPE_NUMBER⟩ ∧
    (Evaluate (LetNumber "x" 1) .interpreterScope initialState).state.Scope.GetVariable "y"
      = none ∧
    EvaluateOpenTag
        (.mk "Block" []
          [.K_CLOSE_TAG (.mk "Let" [.mk "id" (.K_STRING "y"), .mk "value" (.K_IDENTIFIER "x")])])
        .interpreterScope (Evaluate (LetNumber "x" 1) .interpreterScope initialState).state
      = .ok Undefined
          { (Evaluate (LetNumber "x" 1) .interpreterScope initialState).state with
            Scope := { (Evaluate (LetNumber "x" 1) .interpreterScope initialState).state.Scope with
              Variables :=
                (Evaluate (LetNumber "x" 1) .interpreterScope initialState).state.Scope.Variables
                  ++ [⟨"y", .int 1, .VAR_TYPE_NUMBER⟩] } } :=
  ⟨rfl, rfl,
    (Block_uses_global_Scope "Block" [] "x" "y" .interpreterScope
      (Evaluate (LetNumber "x" 1) .interpreterScope initialState).state
      ⟨"x", .int 1, .VAR_TYPE_NUMBER⟩ rfl rfl).2.1⟩

/-- C19 as stated fails. The program `<Let id="x" value=1/>` followed by a
block with the child `<Let id="y" value=x/>` runs without error: inside the
block the Identifier `x` resolves to the top-level variable, and after the run
the global Scope holds `y`, bound to the Number `1`, next to `x`. -/
theorem top_level_variable_visible_in_block :
    (Run ⟨[LetNumber "x" 1,
        .K_OPEN_TAG (.mk "Block" []
          [.K_CLOSE_TAG
            (.mk "Let" [.mk "id" (.K_STRING "y"), .mk "value" (.K_IDENTIFIER "x")])])]⟩).result
      = .ok () ∧
    (Run ⟨[LetNumber "x" 1,
        .K_OPEN_TAG (.mk "Block" []
          [.K_CLOSE_TAG
            (.mk "Let" [.mk "id" (.K_STRING "y"),
              .mk "value" (.K_IDENTIFIER "x")])])]⟩).state.Scope.GetVariable "y"
      = some ⟨"y", .int 1, .VAR_TYPE_NUMBER⟩ ∧
    (Run ⟨[LetNumber "x" 1,
        .K_OPEN_TAG (.mk "Block" []
          [.K_CLOSE_TAG
            (.mk "Let" [.mk "id" (.K_STRING "y"),
              .mk "value" (.K_IDENTIFIER "x")])])]⟩).state.Scope.Variables.map
        (fun v => v.Name)
      = ["Print", "If", "x", "y"] :=
  ⟨rfl, rfl, rfl⟩

/-! ### C20: the operand stack is balanced -/

/-- C20. Let `expr` be a well-formed Expression: a postfix sequence of
operands (Identifiers, Numbers, Strings and nested well-formed Expressions) and
of the operator tokens `EvaluateOperator` knows, that reduces to one value. If
`EvaluateExpression` returns `v` without error, then its loop has reduced the
sequence to the single value `v` on top of the operand stack as it was before
the call, and after the call the stack of `scope` is exactly what it was
before, whatever it held. A nested Expression is evaluated with the same
`scope`, so it neither consumes nor leaves behind operands of the enclosing
one. -/
theorem Expression_stack_balance (expr : Expression) (scope : ScopeRef) (st st1 : State)
    (v : EvalValue) (hwf : expr.WellFormed = true)
    (hev : EvaluateExpression expr scope st = .ok v st1) :
    (st1.deref scope).Stack = (st.deref scope).Stack ∧
    (∃ stR, EvaluateExpression.range expr.Statements scope st = .ok () stR ∧
      (stR.deref scope).Stack = v :: (st.deref scope).Stack) ∧
    Evaluate (.K_EXPRESSION expr) scope st = .ok v st1 := by
  obtain ⟨h1, h2⟩ := expression_balance expr scope st st1 v hwf hev
  refine ⟨h1, h2, ?_⟩
  rw [Evaluate]
  exact hev

/-- An instance of C20: the Expression `1 (2 3 +) *`, with a nested
Expression, evaluated when the operand stack already holds the Number `9`. It
returns the Number `5` and the stack holds the Number `9` again, nothing
else. -/
theorem Expression_stack_balance_witness :
    Expression.WellFormed
      (.mk [.K_NUMBER 1, NumberExpression 2 3 "+", .K_OPERATOR "*"]) = true ∧
    EvaluateExpression (.mk [.K_NUMBER 1, NumberExpression 2 3 "+", .K_OPERATOR "*"])
        .interpreterScope (Push .interpreterScope (Number 9) initialState)
      = .ok (Number 5)
          (EvaluateExpression (.mk [.K_NUMBER 1, NumberExpression 2 3 "+", .K_OPERATOR "*"])
            .interpreterScope (Push .interpreterScope (Number 9) initialState)).state ∧
    ((EvaluateExpression (.mk [.K_NUMBER 1, NumberExpression 2 3 "+", .K_OPERATOR "*"])
        .interpreterScope
        (Push .interpreterScope (Number 9) initialState)).state.deref .interpreterScope).Stack
      = [Number 9] :=
  ⟨by decide, rfl,
    (Expression_stack_balance (.mk [.K_NUMBER 1, NumberExpression 2 3 "+", .K_OPERATOR "*"])
      .interpreterScope (Push .interpreterScope (Number 9) initialState)
      (EvaluateExpression (.mk [.K_NUMBER 1, NumberExpression 2 3 "+", .K_OPERATOR "*"])
        .interpreterScope (Push .interpreterScope (Number 9) initialState)).state
      (Number 5) (by decide) rfl).1⟩

end Sogla
